import Mathlib

/-!
Verification of the radio telemetry and log-relay engine of
`modules/radio_updater.py`: the WSJT-X wire-protocol codec, endpoint
registry, QSO dedup filter, relay worker, durable ADIF log, and the
jt9.exe process watchdog.  The message encoders come from the
repository's own stress-test driver `test_qso_relay.py`
(`encode_qstring`, `encode_qdatetime`, `build_qso_logged_message`).

Modelling conventions:
* Calendar datetimes consumed by the encoder are a record of the
  Python `datetime` fields (`PyDateTime`).
* Python byte strings are `List Nat`, one entry per byte.
* Python text strings are represented by their UTF-8 byte sequences
  (`List Nat`); Python's UTF-8 encode/decode is a bijection between text
  and valid UTF-8 byte sequences, and the codec only measures and copies
  those bytes, so this is faithful to `str.encode` / `bytes.decode`.
* Python `datetime` values are milliseconds since 1970-01-01T00:00:00,
  as `Int` (the `datetime` arithmetic in the source is exact millisecond
  arithmetic with no leap seconds).
* Machine integers are `Nat` with explicit bounds where overflow matters.
* Fallible code returns `Except String` / `Option` exactly where the
  Python raises / catches.
* Socket, file and print side effects are modelled as an explicit
  effect trace (`Effect`) emitted by each handler.
-/

namespace RadioUpdaterModel

/-! ## Definitions: the embedded model of `radio_updater.py` -/

/-- Big-endian value of a byte list (as produced by `struct.unpack`). -/
def beVal (bs : List Nat) : Nat :=
  bs.foldl (fun acc b => acc * 256 + b) 0

/-- Big-endian encoding of `n` into `w` bytes (as `struct.pack` does). -/
def beBytes : Nat → Nat → List Nat
  | 0, _ => []
  | w + 1, n => beBytes w (n / 256) ++ [n % 256]

/-- Python slice `data[offset : offset + len]` (Python slicing never over-runs). -/
def slice (data : List Nat) (offset len : Nat) : List Nat :=
  (data.drop offset).take len

/-- Protocol constant `MAGIC = 0xADBCCBDA`. -/
def MAGIC : Nat := 0xADBCCBDA

/-- Protocol constant `SCHEMA = 3`. -/
def SCHEMA : Nat := 3

def MSG_HEARTBEAT : Nat := 0

def MSG_QSO_LOGGED : Nat := 5

def MSG_LOCATION : Nat := 11

def MSG_LOGGED_ADIF : Nat := 12

/-- Model of `_encode_qstring`: 32-bit big-endian byte-length prefix plus the
UTF-8 bytes; `None` or the empty string encode as the null sentinel
`0xFFFFFFFF`. -/
def encode_qstring (text : Option (List Nat)) : List Nat :=
  match text with
  | none => beBytes 4 0xFFFFFFFF
  | some s => if s = [] then beBytes 4 0xFFFFFFFF else beBytes 4 s.length ++ s

/-- Model of `_decode_qstring`: reads the 4-byte length, handles the
`0xFFFFFFFF` null sentinel (decodes to empty), bounds-checks the
remaining buffer, and returns the string bytes with the new offset. -/
def decode_qstring (data : List Nat) (offset : Nat) :
    Except String (List Nat × Nat) :=
  if data.length < offset + 4 then
    .error "Not enough data for QString length"
  else
    let len := beVal (slice data offset 4)
    if len = 0xFFFFFFFF then
      .ok ([], offset + 4)
    else if data.length < offset + 4 + len then
      .error "Not enough data for QString content"
    else
      .ok (slice data (offset + 4) len, offset + 4 + len)

/-- Model of `_decode_qdatetime`: 8-byte big-endian Julian day, 4-byte big-endian
milliseconds since midnight, 1-byte time spec (read but not used in the
value).  The value is `datetime(1970,1,1) + (J - 2440588) days + msecs`,
represented as milliseconds since the epoch. -/
def decode_qdatetime (data : List Nat) (offset : Nat) :
    Except String (Int × Nat) :=
  if data.length < offset + 13 then
    .error "Not enough data for QDateTime"
  else
    let julian_day := beVal (slice data offset 8)
    let msecs := beVal (slice data (offset + 8) 4)
    let days_since_epoch : Int := (julian_day : Int) - 2440588
    .ok (days_since_epoch * 86400000 + (msecs : Int), offset + 13)

/-- Model of `struct.unpack` of a big-endian `quint64` at `offset` (raises when
fewer than 8 bytes remain, as Python's `struct.unpack` does on a short
slice). -/
def decode_quint64 (data : List Nat) (offset : Nat) :
    Except String (Nat × Nat) :=
  if data.length < offset + 8 then
    .error "unpack requires a buffer of 8 bytes"
  else
    .ok (beVal (slice data offset 8), offset + 8)

/-- The calendar fields of a Python `datetime` value, as consumed by
the repository's `encode_qdatetime` (`src/test_qso_relay.py`,
line 30). -/
structure PyDateTime where
  year : Int
  month : Int
  day : Int
  hour : Int
  minute : Int
  second : Int
  microsecond : Int
  deriving DecidableEq, Repr

/-- The Julian day number computed by `encode_qdatetime` of
`src/test_qso_relay.py` (lines 33-36); Python's `//` is floor
division, which is `Int` division for these positive divisors. -/
def julianOf (dt : PyDateTime) : Int :=
  let a := (14 - dt.month) / 12
  let y := dt.year + 4800 - a
  let m := dt.month + 12 * a - 3
  dt.day + (153 * m + 2) / 5 + 365 * y + y / 4 - y / 100 + y / 400 - 32045

/-- The milliseconds-since-midnight computed by `encode_qdatetime` of
`src/test_qso_relay.py` (line 39). -/
def msecsOf (dt : PyDateTime) : Int :=
  (dt.hour * 3600 + dt.minute * 60 + dt.second) * 1000 +
    dt.microsecond / 1000

/-- Translation of `encode_qdatetime` from `src/test_qso_relay.py`
(line 30): 8-byte big-endian Julian day, 4-byte big-endian
milliseconds since midnight, time-spec byte `1` (UTC). -/
def encode_qdatetime (dt : PyDateTime) : List Nat :=
  beBytes 8 (julianOf dt).toNat ++ beBytes 4 (msecsOf dt).toNat ++ [1]

/-- The epoch-millisecond timestamp `_decode_qdatetime` recovers from
`encode_qdatetime dt`: `(julian - 2440588)` days plus the milliseconds
since midnight. -/
def qdatetimeValue (dt : PyDateTime) : Int :=
  (julianOf dt - 2440588) * 86400000 + msecsOf dt

/-- A calendar value whose packed encoding is well formed: the Julian
day is nonnegative and fits in 8 bytes and the milliseconds since
midnight are nonnegative and fit in 4 bytes (`struct.pack` raises
otherwise). -/
def WFPyDt (dt : PyDateTime) : Prop :=
  0 ≤ julianOf dt ∧ julianOf dt < 18446744073709551616 ∧
    0 ≤ msecsOf dt ∧ msecsOf dt < 4294967296

/-- Result of `_freq_to_band`.  The catch-all branch of the source
formats the frequency in MHz with three decimals (kHz resolution); we
keep the raw frequency in Hz there, which is a finer-grained (injective)
rendering and is not relied on by any theorem below. -/
inductive Band where
  | b160m | b80m | b60m | b40m | b30m | b20m | b17m | b15m | b12m | b10m
  | b6m | b2m | b1_25m | b70cm | b33cm | b23cm | b13cm | b9cm | b6cm
  | b3cm | b1_25cm
  | otherMHz (hz : Nat)
  deriving DecidableEq, Repr

/-- Model of `_freq_to_band`, with the MHz bounds of the source converted
exactly to Hz (the source compares `tx_freq / 1e6` against decimal
literals; for integer Hz inputs the comparisons agree with exact
rational arithmetic, which these integer comparisons implement). -/
def freq_to_band (hz : Nat) : Band :=
  if 1800000 ≤ hz ∧ hz ≤ 2000000 then .b160m
  else if 3500000 ≤ hz ∧ hz ≤ 4000000 then .b80m
  else if 5300000 ≤ hz ∧ hz ≤ 5400000 then .b60m
  else if 7000000 ≤ hz ∧ hz ≤ 7300000 then .b40m
  else if 10100000 ≤ hz ∧ hz ≤ 10150000 then .b30m
  else if 14000000 ≤ hz ∧ hz ≤ 14350000 then .b20m
  else if 18068000 ≤ hz ∧ hz ≤ 18168000 then .b17m
  else if 21000000 ≤ hz ∧ hz ≤ 21450000 then .b15m
  else if 24890000 ≤ hz ∧ hz ≤ 24990000 then .b12m
  else if 28000000 ≤ hz ∧ hz ≤ 29700000 then .b10m
  else if 50000000 ≤ hz ∧ hz ≤ 54000000 then .b6m
  else if 144000000 ≤ hz ∧ hz ≤ 148000000 then .b2m
  else if 222000000 ≤ hz ∧ hz ≤ 225000000 then .b1_25m
  else if 420000000 ≤ hz ∧ hz ≤ 450000000 then .b70cm
  else if 902000000 ≤ hz ∧ hz ≤ 928000000 then .b33cm
  else if 1240000000 ≤ hz ∧ hz ≤ 1300000000 then .b23cm
  else if 2300000000 ≤ hz ∧ hz ≤ 2450000000 then .b13cm
  else if 3300000000 ≤ hz ∧ hz ≤ 3500000000 then .b9cm
  else if 5650000000 ≤ hz ∧ hz ≤ 5925000000 then .b6cm
  else if 10000000000 ≤ hz ∧ hz ≤ 10500000000 then .b3cm
  else if 24000000000 ≤ hz ∧ hz ≤ 24250000000 then .b1_25cm
  else .otherMHz hz

/-- The dictionary returned by `_parse_qso_logged` (text fields as
UTF-8 byte lists, datetimes as milliseconds since the epoch; the
derived `freq_mhz` float is omitted as it is determined by
`freq_hz`). -/
structure QsoData where
  wsjtx_id : List Nat
  datetime_off : Int
  datetime_on : Int
  dx_call : List Nat
  dx_grid : List Nat
  freq_hz : Nat
  band : Band
  mode : List Nat
  report_sent : List Nat
  report_rcvd : List Nat
  tx_power : List Nat
  comments : List Nat
  name : List Nat
  operator_call : List Nat
  my_call : List Nat
  my_grid : List Nat
  exchange_sent : List Nat
  exchange_rcvd : List Nat
  adif_prop_mode : List Nat
  deriving DecidableEq, Repr

/-- The field-by-field body of `_parse_qso_logged` (starting at offset
12, after the fixed header), with every decode step that can raise
modelled in `Except`; the trailing optional propagation-mode string is
decoded inside its own try/except and defaults to empty. -/
def parse_qso_logged_core (data : List Nat) : Except String QsoData :=
  match decode_qstring data 12 with
  | .error e => .error e
  | .ok (wsjtx_id, o1) =>
  match decode_qdatetime data o1 with
  | .error e => .error e
  | .ok (datetime_off, o2) =>
  match decode_qstring data o2 with
  | .error e => .error e
  | .ok (dx_call, o3) =>
  match decode_qstring data o3 with
  | .error e => .error e
  | .ok (dx_grid, o4) =>
  match decode_quint64 data o4 with
  | .error e => .error e
  | .ok (tx_freq, o5) =>
  match decode_qstring data o5 with
  | .error e => .error e
  | .ok (mode, o6) =>
  match decode_qstring data o6 with
  | .error e => .error e
  | .ok (report_sent, o7) =>
  match decode_qstring data o7 with
  | .error e => .error e
  | .ok (report_rcvd, o8) =>
  match decode_qstring data o8 with
  | .error e => .error e
  | .ok (tx_power, o9) =>
  match decode_qstring data o9 with
  | .error e => .error e
  | .ok (comments, o10) =>
  match decode_qstring data o10 with
  | .error e => .error e
  | .ok (name, o11) =>
  match decode_qdatetime data o11 with
  | .error e => .error e
  | .ok (datetime_on, o12) =>
  match decode_qstring data o12 with
  | .error e => .error e
  | .ok (operator_call, o13) =>
  match decode_qstring data o13 with
  | .error e => .error e
  | .ok (my_call, o14) =>
  match decode_qstring data o14 with
  | .error e => .error e
  | .ok (my_grid, o15) =>
  match decode_qstring data o15 with
  | .error e => .error e
  | .ok (exchange_sent, o16) =>
  match decode_qstring data o16 with
  | .error e => .error e
  | .ok (exchange_rcvd, o17) =>
  let adif_prop_mode :=
    match decode_qstring data o17 with
    | .ok (s, _) => s
    | .error _ => []
  .ok { wsjtx_id := wsjtx_id, datetime_off := datetime_off,
        datetime_on := datetime_on, dx_call := dx_call,
        dx_grid := dx_grid, freq_hz := tx_freq,
        band := freq_to_band tx_freq, mode := mode,
        report_sent := report_sent, report_rcvd := report_rcvd,
        tx_power := tx_power, comments := comments, name := name,
        operator_call := operator_call, my_call := my_call,
        my_grid := my_grid, exchange_sent := exchange_sent,
        exchange_rcvd := exchange_rcvd, adif_prop_mode := adif_prop_mode }

/-- Model of `_parse_qso_logged`: the enclosing try/except returns `None` when
any (non-optional) decode step raises. -/
def parse_qso_logged (data : List Nat) : Option QsoData :=
  match parse_qso_logged_core data with
  | .ok q => some q
  | .error _ => none

/-- Model of `_parse_adif_logged`: the instance id and the raw ADIF record text,
or `None` when decoding raises. -/
def parse_adif_logged (data : List Nat) : Option (List Nat × List Nat) :=
  match decode_qstring data 12 with
  | .error _ => none
  | .ok (wsjtx_id, o1) =>
    match decode_qstring data o1 with
    | .error _ => none
    | .ok (adif_record, _) => some (wsjtx_id, adif_record)

/-- Model of `_parse_packet_header`: requires at least 12 bytes, checks the magic
constant, and decodes the instance-id string at offset 12. -/
def parse_packet_header (data : List Nat) :
    Except String (Nat × List Nat) :=
  if data.length < 12 then
    .error "Packet too short"
  else
    let magic := beVal (slice data 0 4)
    let msg_type := beVal (slice data 8 4)
    if magic ≠ MAGIC then
      .error "Invalid magic number"
    else
      match decode_qstring data 12 with
      | .error e => .error e
      | .ok (wsjtx_id, _) => .ok (msg_type, wsjtx_id)

/-- Model of `self.wsjtx_ids` — a dictionary keyed by the heartbeat's source
port, valued by `(wsjtx_id, last_seen)`; modelled as an association
list. -/
def Registry := List (Nat × (List Nat × Nat))

instance : DecidableEq Registry := by
  unfold Registry
  infer_instance

/-- Dictionary lookup `self.wsjtx_ids.get(port)`. -/
def registry_lookup (reg : Registry) (port : Nat) :
    Option (List Nat × Nat) :=
  match reg with
  | [] => none
  | (p, v) :: rest =>
    if p = port then some v else registry_lookup rest port

/-- Dictionary membership `port in self.wsjtx_ids`. -/
def registry_mem (reg : Registry) (port : Nat) : Bool :=
  match reg with
  | [] => false
  | (p, _) :: rest => if p = port then true else registry_mem rest port

/-- Dictionary assignment `self.wsjtx_ids[port] = v`. -/
def registry_set (reg : Registry) (port : Nat) (v : List Nat × Nat) :
    Registry :=
  match reg with
  | [] => [(port, v)]
  | (p, w) :: rest =>
    if p = port then (port, v) :: rest else (p, w) :: registry_set rest port v

/-- The mutable state of a `RadioUpdater` that the claims touch.  The
external callbacks `location_stamper` and `qso_callback` are outside
collaborators (configured as `None` here) and socket/file handles are
represented by the effect trace. -/
structure UpdaterState where
  wsjtx_ids : Registry
  logged_qsos : List (Int × List Nat × Band)
  adif_log : List QsoData
  raw_adif_log : List (List Nat)
  qso_queue : List QsoData
  current_grid : Option (List Nat)
  jt9_pids : List Nat
  deriving DecidableEq

/-- The freshly constructed state (`__init__`). -/
def initState : UpdaterState :=
  { wsjtx_ids := [], logged_qsos := [], adif_log := [],
    raw_adif_log := [], qso_queue := [], current_grid := none,
    jt9_pids := [] }

/-- Observable side effects of the handlers, in program order. -/
inductive Effect where
  /-- The message "Discovered WSJT-X instance ... listening on port ..." printed on
  the first heartbeat from a source port. -/
  | reportDiscovered (port : Nat) (id : List Nat)
  /-- Effect of `_write_qso_to_adif`: append one record to the daily ADIF file. -/
  | adifWrite (q : QsoData)
  /-- Effect of `self.qso_queue.put(qso_data)`. -/
  | enqueue (q : QsoData)
  /-- The message "Duplicate QSO ignored" — the event is dropped by the filter. -/
  | dropDuplicate (q : QsoData)
  /-- A datagram whose decode raised was discarded at the listener. -/
  | dropMalformed
  /-- Effect of `_handle_adif_logged`: append a raw ADIF record to the file. -/
  | rawAdifWrite (r : List Nat)
  /-- One delivery attempt of the relay worker, with the cyclic offset
  it assigned and the adapter's outcome. -/
  | deliver (q : QsoData) (offset : Nat) (success : Bool)
  /-- Effect of `time.sleep` for the given number of milliseconds. -/
  | sleepMs (ms : Nat)
  /-- Effect of `_send_wsjt_location`: one UDP datagram to the given port. -/
  | sendLocation (port : Nat) (msg : List Nat)
  deriving DecidableEq

/-- The dedup key `(timeOff truncated to a whole second, callsign, band)` — the key
built in `_handle_qso_logged` via `strftime('%Y%m%d%H%M%S')`, which
truncates the timestamp to whole seconds. -/
def dedupKey (q : QsoData) : Int × List Nat × Band :=
  (q.datetime_off / 1000, q.dx_call, q.band)

/-- Model of `_handle_qso_logged`: drop if the dedup key is already in
`self.logged_qsos`; otherwise insert the key, write the ADIF backup,
then queue the event for relay (in that order). -/
def handle_qso_logged (st : UpdaterState) (q : QsoData) :
    UpdaterState × List Effect :=
  if dedupKey q ∈ st.logged_qsos then
    (st, [Effect.dropDuplicate q])
  else
    ({ st with logged_qsos := dedupKey q :: st.logged_qsos,
               adif_log := st.adif_log ++ [q],
               qso_queue := st.qso_queue ++ [q] },
     [Effect.adifWrite q, Effect.enqueue q])

/-- One inbound UDP datagram with its source port and the wall-clock
time (`time.time()`) at receipt. -/
structure Datagram where
  data : List Nat
  source_port : Nat
  now : Nat
  deriving DecidableEq

/-- The body of `_listen_loop` for one received datagram: parse the
header (any raise discards the datagram), then dispatch on the message
type — heartbeats update the registry keyed by the *source port* and
report a previously unseen port once; QSO Logged events go through the
dedup filter; ADIF Logged records are appended to the daily file; other
types are ignored. -/
def process_datagram (st : UpdaterState) (d : Datagram) :
    UpdaterState × List Effect :=
  match parse_packet_header d.data with
  | .error _ => (st, [Effect.dropMalformed])
  | .ok (msg_type, wsjtx_id) =>
    if msg_type = MSG_HEARTBEAT then
      let effs :=
        if registry_mem st.wsjtx_ids d.source_port then []
        else [Effect.reportDiscovered d.source_port wsjtx_id]
      ({ st with wsjtx_ids :=
          registry_set st.wsjtx_ids d.source_port (wsjtx_id, d.now) }, effs)
    else if msg_type = MSG_QSO_LOGGED then
      match parse_qso_logged d.data with
      | some q => handle_qso_logged st q
      | none => (st, [])
    else if msg_type = MSG_LOGGED_ADIF then
      match parse_adif_logged d.data with
      | some r => ({ st with raw_adif_log := st.raw_adif_log ++ [r.2] },
                   [Effect.rawAdifWrite r.2])
      | none => (st, [])
    else (st, [])

/-- The receive loop of `_listen_loop` over a finite list of inbound
datagrams. -/
def listen_run : UpdaterState → List Datagram → UpdaterState × List Effect
  | st, [] => (st, [])
  | st, d :: ds =>
    let r1 := process_datagram st d
    let r2 := listen_run r1.1 ds
    (r2.1, r1.2 ++ r2.2)

/-- The dedup/durable-log/queue pipeline applied to a finite list of
parsed ContactLogged events (the calls `_handle_qso_logged` makes in
arrival order). -/
def run_qso_pipeline : UpdaterState → List QsoData → UpdaterState × List Effect
  | st, [] => (st, [])
  | st, q :: qs =>
    let r1 := handle_qso_logged st q
    let r2 := run_qso_pipeline r1.1 qs
    (r2.1, r1.2 ++ r2.2)

/-- The offset update in `_relay_loop`: `qso_offset += 1`, reset to `0`
once it exceeds 59. -/
def nextOffset (off : Nat) : Nat :=
  if off + 1 > 59 then 0 else off + 1

/-- Model of `_relay_loop` draining a queue of events: pop one event, stamp it
with the current cyclic offset, attempt delivery (the adapter outcome
for the i-th delivery is `out i` — success or failure), then sleep the
fixed 500 ms delay and move to the next event regardless of the
outcome.  No retry path exists. -/
def relay_run (off : Nat) : List QsoData → (Nat → Bool) → List Effect
  | [], _ => []
  | q :: qs, out =>
    Effect.deliver q off (out 0) :: Effect.sleepMs 500 ::
      relay_run (nextOffset off) qs (fun n => out (n + 1))

/-- The events delivered in a relay trace, in order. -/
def delivered : List Effect → List QsoData
  | [] => []
  | Effect.deliver q _ _ :: rest => q :: delivered rest
  | _ :: rest => delivered rest

/-- The sequence offsets assigned in a relay trace, in order. -/
def offsetsOf : List Effect → List Nat
  | [] => []
  | Effect.deliver _ o _ :: rest => o :: offsetsOf rest
  | _ :: rest => offsetsOf rest

/-- Checks that a relay trace is an alternation: every delivery attempt
is immediately followed by the fixed 500 ms sleep before the next pop. -/
def alternatesOk : List Effect → Bool
  | [] => true
  | Effect.deliver _ _ _ :: Effect.sleepMs 500 :: rest => alternatesOk rest
  | _ => false

/-- The part of `_build_adif_for_n1mm` the claims depend on: the record
fields for one QSO, with `'-10'` (bytes `[45, 49, 48]`) substituted for
falsy reports and the `_time_offset` seconds added to `time off` to
derive the record's date/time fields (the textual ADIF rendering is
abstracted to the field values). -/
structure N1mmRecord where
  call : List Nat
  grid : List Nat
  mode : List Nat
  rst_sent : List Nat
  rst_rcvd : List Nat
  freq_hz : Nat
  band : Band
  qso_time : Int
  deriving DecidableEq

def build_adif_for_n1mm (q : QsoData) (time_offset : Nat) : N1mmRecord :=
  { call := q.dx_call, grid := q.dx_grid, mode := q.mode,
    rst_sent := if q.report_sent = [] then [45, 49, 48] else q.report_sent,
    rst_rcvd := if q.report_rcvd = [] then [45, 49, 48] else q.report_rcvd,
    freq_hz := q.freq_hz, band := q.band,
    qso_time := q.datetime_off + (time_offset : Int) * 1000 }

/-- The LocationChange message built by `_send_wsjt_location`:
magic, schema, type 11, instance id, grid. -/
def encode_location_msg (wsjtx_id grid : List Nat) : List Nat :=
  beBytes 4 MAGIC ++ beBytes 4 SCHEMA ++ beBytes 4 MSG_LOCATION ++
    encode_qstring (some wsjtx_id) ++ encode_qstring (some grid)

/-- Python truthiness of `self.current_grid` (`None` and the empty
string are falsy). -/
def gridTruthy : Option (List Nat) → Bool
  | none => false
  | some g => decide (g ≠ [])

/-- Model of `_resend_grid_to_all`: one LocationChange datagram per discovered
endpoint, sent to the endpoint's stored source port. -/
def resend_grid_to_all (st : UpdaterState) : List Effect :=
  match st.current_grid with
  | none => []
  | some g =>
    if g = [] then []
    else st.wsjtx_ids.map
      (fun e => Effect.sendLocation e.1 (encode_location_msg e.2.1 g))

/-- One poll cycle of `_jt9_monitor_loop`: compare the sampled PID set
with the previous one; when a new PID appears *and* a grid is set, wait
the 2 s settle delay and resend the grid to every registered endpoint;
in every case remember the sample as the new PID set. -/
def jt9_monitor_step (st : UpdaterState) (current_pids : List Nat) :
    UpdaterState × List Effect :=
  let new_pids := current_pids.filter (fun p => decide (p ∉ st.jt9_pids))
  if new_pids ≠ [] ∧ gridTruthy st.current_grid = true then
    ({ st with jt9_pids := current_pids },
     Effect.sleepMs 2000 :: resend_grid_to_all st)
  else
    ({ st with jt9_pids := current_pids }, [])

/-- A concrete ContactLogged event: `W1AW` (bytes of the callsign) on
6 m, time off 1000 ms after the epoch. -/
def e0 : QsoData :=
  { wsjtx_id := [], datetime_off := 1000, datetime_on := 0,
    dx_call := [87, 49, 65, 87], dx_grid := [69, 77, 49, 53],
    freq_hz := 50313000, band := freq_to_band 50313000,
    mode := [70, 84, 56], report_sent := [], report_rcvd := [],
    tx_power := [], comments := [], name := [], operator_call := [],
    my_call := [], my_grid := [], exchange_sent := [],
    exchange_rcvd := [], adif_prop_mode := [] }

/-- Translation of `build_qso_logged_message` from
`src/test_qso_relay.py` (line 44): the repository's encoder for a
WSJT-X QSO Logged (Type 5) message — header (magic, schema, type),
then instance id, time-off, DX call, DX grid, 8-byte frequency in Hz,
mode, reports, empty power/comments/name, time-on, operator call
(= my call), my call, my grid, exchange sent (= my grid), exchange
received (= DX grid), and an empty trailing ADIF propagation mode.
The source samples `datetime.utcnow()` internally and uses it for both
timestamps; that sampled clock value is the `now` parameter here. -/
def build_qso_logged_message (wsjtx_id dx_call dx_grid : List Nat)
    (freq_hz : Nat) (mode rst_sent rst_rcvd my_call my_grid : List Nat)
    (now : PyDateTime) : List Nat :=
  beBytes 4 MAGIC ++ beBytes 4 SCHEMA ++ beBytes 4 MSG_QSO_LOGGED ++
    encode_qstring (some wsjtx_id) ++
    encode_qdatetime now ++
    encode_qstring (some dx_call) ++
    encode_qstring (some dx_grid) ++
    beBytes 8 freq_hz ++
    encode_qstring (some mode) ++
    encode_qstring (some rst_sent) ++
    encode_qstring (some rst_rcvd) ++
    encode_qstring (some []) ++
    encode_qstring (some []) ++
    encode_qstring (some []) ++
    encode_qdatetime now ++
    encode_qstring (some my_call) ++
    encode_qstring (some my_call) ++
    encode_qstring (some my_grid) ++
    encode_qstring (some my_grid) ++
    encode_qstring (some dx_grid) ++
    encode_qstring (some [])

/-- The same message truncated before the trailing optional
propagation-mode segment (a ContactLogged datagram as an older
protocol schema would send it, with the optional trailing field
absent); `build_qso_logged_message` equals this followed by the
encoding of the empty propagation mode. -/
def build_qso_logged_fields (wsjtx_id dx_call dx_grid : List Nat)
    (freq_hz : Nat) (mode rst_sent rst_rcvd my_call my_grid : List Nat)
    (now : PyDateTime) : List Nat :=
  beBytes 4 MAGIC ++ beBytes 4 SCHEMA ++ beBytes 4 MSG_QSO_LOGGED ++
    encode_qstring (some wsjtx_id) ++
    encode_qdatetime now ++
    encode_qstring (some dx_call) ++
    encode_qstring (some dx_grid) ++
    beBytes 8 freq_hz ++
    encode_qstring (some mode) ++
    encode_qstring (some rst_sent) ++
    encode_qstring (some rst_rcvd) ++
    encode_qstring (some []) ++
    encode_qstring (some []) ++
    encode_qstring (some []) ++
    encode_qdatetime now ++
    encode_qstring (some my_call) ++
    encode_qstring (some my_call) ++
    encode_qstring (some my_grid) ++
    encode_qstring (some my_grid) ++
    encode_qstring (some dx_grid)

/-- The dictionary `_parse_qso_logged` recovers from a
`build_qso_logged_message` datagram (timestamps as decoded:
`(julian - 2440588)` days plus milliseconds, since the epoch). -/
def qso_logged_record (wsjtx_id dx_call dx_grid : List Nat)
    (freq_hz : Nat) (mode rst_sent rst_rcvd my_call my_grid : List Nat)
    (now : PyDateTime) : QsoData :=
  { wsjtx_id := wsjtx_id, datetime_off := qdatetimeValue now,
    datetime_on := qdatetimeValue now, dx_call := dx_call,
    dx_grid := dx_grid, freq_hz := freq_hz,
    band := freq_to_band freq_hz, mode := mode,
    report_sent := rst_sent, report_rcvd := rst_rcvd,
    tx_power := [], comments := [], name := [],
    operator_call := my_call, my_call := my_call, my_grid := my_grid,
    exchange_sent := my_grid, exchange_rcvd := dx_grid,
    adif_prop_mode := [] }

/-- The instance id `"WSJT-X - ic7610"` as UTF-8 bytes. -/
def IC_ID : List Nat :=
  [87, 83, 74, 84, 45, 88, 32, 45, 32, 105, 99, 55, 54, 49, 48]

/-- A heartbeat datagram from that instance, received from source port
61234 at time 777. -/
def hb0 : Datagram :=
  { data := beBytes 4 MAGIC ++ beBytes 4 SCHEMA ++
      beBytes 4 MSG_HEARTBEAT ++ encode_qstring (some IC_ID),
    source_port := 61234, now := 777 }

/-- Count of `reportDiscovered` effects for the given port. -/
def reportCount (p : Nat) : List Effect → Nat
  | [] => 0
  | Effect.reportDiscovered q _ :: rest =>
    (if q = p then 1 else 0) + reportCount p rest
  | _ :: rest => reportCount p rest

/-! ## Theorems -/

/-! ### Basic facts about the byte primitives -/

theorem beBytes_length (w n : Nat) : (beBytes w n).length = w := by
  induction w generalizing n with
  | zero => rfl
  | succ w ih => simp [beBytes, ih]

theorem beVal_append_singleton (xs : List Nat) (b : Nat) :
    beVal (xs ++ [b]) = beVal xs * 256 + b := by
  simp [beVal, List.foldl_append]

theorem beVal_beBytes (w n : Nat) (h : n < 256 ^ w) :
    beVal (beBytes w n) = n := by
  induction w generalizing n with
  | zero => simp [beBytes, beVal]; omega
  | succ w ih =>
    have hdiv : n / 256 < 256 ^ w := by
      have : n < 256 ^ w * 256 := by
        calc n < 256 ^ (w + 1) := h
        _ = 256 ^ w * 256 := by ring
      omega
    rw [beBytes, beVal_append_singleton, ih _ hdiv]
    omega

theorem take_append_of_length (l₁ l₂ : List Nat) (n : Nat)
    (h : l₁.length = n) : (l₁ ++ l₂).take n = l₁ := by
  subst h
  simp

theorem drop_append_of_length (l₁ l₂ : List Nat) (n : Nat)
    (h : l₁.length = n) : (l₁ ++ l₂).drop n = l₂ := by
  subst h
  simp

/-! ### String codec round trip -/

/-- Decoding at `P.length` inside `P ++ encode_qstring (some s) ++ S`
recovers `s` and advances exactly past the encoded string. -/
theorem decode_qstring_at (P s S : List Nat) (h : s.length < 0xFFFFFFFF) :
    decode_qstring (P ++ (encode_qstring (some s) ++ S)) P.length =
      .ok (s, P.length + (encode_qstring (some s)).length) := by
  by_cases hs : s = []
  · subst hs
    have hlen : (P ++ (encode_qstring (some ([] : List Nat)) ++ S)).length =
        P.length + 4 + S.length := by
      simp [encode_qstring, beBytes_length]
      omega
    have hslice : slice (P ++ (encode_qstring (some ([] : List Nat)) ++ S))
        P.length 4 = beBytes 4 0xFFFFFFFF := by
      unfold slice
      rw [drop_append_of_length P _ P.length rfl]
      show ((beBytes 4 0xFFFFFFFF ++ S).take 4) = _
      exact take_append_of_length _ _ _ (beBytes_length 4 _)
    unfold decode_qstring
    rw [hslice, beVal_beBytes 4 0xFFFFFFFF (by norm_num)]
    simp [encode_qstring, beBytes_length, hlen]
  · have henc : encode_qstring (some s) = beBytes 4 s.length ++ s := by
      simp [encode_qstring, hs]
    have hlen : (P ++ (encode_qstring (some s) ++ S)).length =
        P.length + 4 + s.length + S.length := by
      simp [henc, beBytes_length]
      omega
    have hslice : slice (P ++ (encode_qstring (some s) ++ S)) P.length 4 =
        beBytes 4 s.length := by
      unfold slice
      rw [drop_append_of_length P _ P.length rfl, henc, List.append_assoc]
      exact take_append_of_length _ _ _ (beBytes_length 4 _)
    have hbody : slice (P ++ (encode_qstring (some s) ++ S))
        (P.length + 4) s.length = s := by
      unfold slice
      rw [henc, List.append_assoc, ← List.append_assoc P]
      rw [drop_append_of_length (P ++ beBytes 4 s.length) _ (P.length + 4)
        (by simp [beBytes_length])]
      exact take_append_of_length _ _ _ rfl
    unfold decode_qstring
    rw [hslice, beVal_beBytes 4 s.length (by omega)]
    have hne : ¬ s.length = 0xFFFFFFFF := by omega
    simp only [hlen, hne, if_false, if_neg (by omega : ¬ P.length + 4 + s.length + S.length < P.length + 4),
      if_neg (by omega : ¬ P.length + 4 + s.length + S.length < P.length + 4 + s.length)]
    rw [hbody]
    simp [henc, beBytes_length]
    omega

theorem encode_qdatetime_length (dt : PyDateTime) :
    (encode_qdatetime dt).length = 13 := by
  simp [encode_qdatetime, beBytes_length]

/-- Decoding at `P.length` inside `P ++ encode_qdatetime dt ++ S`
recovers the timestamp `qdatetimeValue dt` and consumes exactly 13
bytes. -/
theorem decode_qdatetime_src_at (P : List Nat) (dt : PyDateTime)
    (S : List Nat) (h : WFPyDt dt) :
    decode_qdatetime (P ++ (encode_qdatetime dt ++ S)) P.length =
      .ok (qdatetimeValue dt, P.length + 13) := by
  obtain ⟨hj0, hjlt, hm0, hmlt⟩ := h
  have hjul : ((julianOf dt).toNat : Int) = julianOf dt :=
    Int.toNat_of_nonneg hj0
  have hjulnat : (julianOf dt).toNat < 256 ^ 8 := by
    have h8 : (256 : Nat) ^ 8 = 18446744073709551616 := by norm_num
    omega
  have hmsnat : (msecsOf dt).toNat < 256 ^ 4 := by
    have h4 : (256 : Nat) ^ 4 = 4294967296 := by norm_num
    omega
  have hlen : (P ++ (encode_qdatetime dt ++ S)).length =
      P.length + 13 + S.length := by
    simp [encode_qdatetime, beBytes_length]
    omega
  have hslice8 : slice (P ++ (encode_qdatetime dt ++ S)) P.length 8 =
      beBytes 8 (julianOf dt).toNat := by
    unfold slice
    rw [drop_append_of_length P _ P.length rfl]
    show ((beBytes 8 _ ++ beBytes 4 _ ++ [1] ++ S).take 8) = _
    rw [List.append_assoc, List.append_assoc]
    exact take_append_of_length _ _ _ (beBytes_length 8 _)
  have hslice4 : slice (P ++ (encode_qdatetime dt ++ S)) (P.length + 8) 4 =
      beBytes 4 (msecsOf dt).toNat := by
    unfold slice
    have hsplit : P ++ (encode_qdatetime dt ++ S) =
        (P ++ beBytes 8 (julianOf dt).toNat) ++
          (beBytes 4 (msecsOf dt).toNat ++ ([1] ++ S)) := by
      simp [encode_qdatetime, List.append_assoc]
    rw [hsplit, drop_append_of_length _ _ (P.length + 8)
      (by simp [beBytes_length])]
    exact take_append_of_length _ _ _ (beBytes_length 4 _)
  unfold decode_qdatetime
  rw [if_neg (by omega :
    ¬ (P ++ (encode_qdatetime dt ++ S)).length < P.length + 13)]
  rw [hslice8, hslice4, beVal_beBytes 8 _ hjulnat, beVal_beBytes 4 _ hmsnat]
  show Except.ok ((((julianOf dt).toNat : Int) - 2440588) * 86400000 +
      ((msecsOf dt).toNat : Int), P.length + 13) = _
  rw [hjul, Int.toNat_of_nonneg hm0]
  rfl

/-- Decoding a `quint64` at `P.length` inside `P ++ beBytes 8 n ++ S`. -/
theorem decode_quint64_at (P : List Nat) (n : Nat) (S : List Nat)
    (h : n < 18446744073709551616) :
    decode_quint64 (P ++ (beBytes 8 n ++ S)) P.length =
      .ok (n, P.length + 8) := by
  have hlen : (P ++ (beBytes 8 n ++ S)).length =
      P.length + 8 + S.length := by
    simp [beBytes_length]
    omega
  have hslice : slice (P ++ (beBytes 8 n ++ S)) P.length 8 = beBytes 8 n := by
    unfold slice
    rw [drop_append_of_length P _ P.length rfl]
    exact take_append_of_length _ _ _ (beBytes_length 8 _)
  unfold decode_quint64
  rw [if_neg (by omega : ¬ (P ++ (beBytes 8 n ++ S)).length < P.length + 8)]
  rw [hslice, beVal_beBytes 8 n (by norm_num; omega)]

/-! ### Claim C4 — relay worker never retries and never stalls -/

/-- C4. After each relay delivery attempt, whether the adapter
returns success or failure, the relay worker performs no retry of that
event, sleeps the fixed 500 ms inter-send delay, and proceeds to the
next queued event: for every queue and every outcome oracle, the trace
delivers each queued event exactly once in order (so a failed delivery
never stalls the queue), and every delivery attempt is immediately
followed by the 500 ms sleep. -/
theorem relay_no_retry_no_stall (off : Nat) (es : List QsoData)
    (out : Nat → Bool) :
    delivered (relay_run off es out) = es ∧
      alternatesOk (relay_run off es out) = true := by
  induction es generalizing off out with
  | nil => simp [relay_run, delivered, alternatesOk]
  | cons q qs ih =>
    have h := ih (nextOffset off) (fun n => out (n + 1))
    simp [relay_run, delivered, alternatesOk, h.1, h.2]

/-! ### Claim C3 — at most one event per dedup key reaches the queue -/

theorem run_qso_pipeline_queue_filter (es : List QsoData)
    (st : UpdaterState) (k : Int × List Nat × Band) :
    ((run_qso_pipeline st es).1.qso_queue.filter
        (fun q => decide (dedupKey q = k))) =
      st.qso_queue.filter (fun q => decide (dedupKey q = k)) ++
        (if k ∈ st.logged_qsos then []
         else (es.filter (fun q => decide (dedupKey q = k))).take 1) := by
  induction es generalizing st with
  | nil =>
    by_cases hk : k ∈ st.logged_qsos <;> simp [run_qso_pipeline, hk]
  | cons q qs ih =>
    by_cases hq : dedupKey q ∈ st.logged_qsos
    · have hstep : handle_qso_logged st q = (st, [Effect.dropDuplicate q]) := by
        simp [handle_qso_logged, hq]
      by_cases hk : k ∈ st.logged_qsos
      · simp [run_qso_pipeline, hstep, ih, hk]
      · have hqk : ¬ dedupKey q = k := fun h => hk (h ▸ hq)
        simp [run_qso_pipeline, hstep, ih, hk, hqk]
    · have hstep : handle_qso_logged st q =
          ({ st with logged_qsos := dedupKey q :: st.logged_qsos,
                     adif_log := st.adif_log ++ [q],
                     qso_queue := st.qso_queue ++ [q] },
           [Effect.adifWrite q, Effect.enqueue q]) := by
        simp [handle_qso_logged, hq]
      by_cases hqk : dedupKey q = k
      · have hk : ¬ k ∈ st.logged_qsos := fun h => hq (hqk ▸ h)
        simp [run_qso_pipeline, hstep, ih, hk, hqk, List.filter_append]
      · by_cases hk : k ∈ st.logged_qsos
        · simp [run_qso_pipeline, hstep, ih, hk, hqk, List.filter_append]
        · simp [run_qso_pipeline, hstep, ih, hk, hqk, List.filter_append]
          intro h
          exact absurd h.symm hqk

theorem run_qso_pipeline_logged_iff (es : List QsoData)
    (st : UpdaterState) (k : Int × List Nat × Band) :
    k ∈ (run_qso_pipeline st es).1.logged_qsos ↔
      k ∈ st.logged_qsos ∨ ∃ q ∈ es, dedupKey q = k := by
  induction es generalizing st with
  | nil => simp [run_qso_pipeline]
  | cons q qs ih =>
    by_cases hq : dedupKey q ∈ st.logged_qsos
    · have hstep : handle_qso_logged st q = (st, [Effect.dropDuplicate q]) := by
        simp [handle_qso_logged, hq]
      rw [run_qso_pipeline]
      simp only [hstep, ih]
      constructor
      · rintro (h | h)
        · exact Or.inl h
        · exact Or.inr ⟨h.choose, List.mem_cons_of_mem _ h.choose_spec.1,
            h.choose_spec.2⟩
      · rintro (h | ⟨q', hq', hk⟩)
        · exact Or.inl h
        · rcases List.mem_cons.mp hq' with h' | h'
          · exact Or.inl (by rw [← hk, h']; exact hq)
          · exact Or.inr ⟨q', h', hk⟩
    · have hstep : handle_qso_logged st q =
          ({ st with logged_qsos := dedupKey q :: st.logged_qsos,
                     adif_log := st.adif_log ++ [q],
                     qso_queue := st.qso_queue ++ [q] },
           [Effect.adifWrite q, Effect.enqueue q]) := by
        simp [handle_qso_logged, hq]
      rw [run_qso_pipeline]
      simp only [hstep, ih]
      simp only [List.mem_cons]
      constructor
      · rintro ((h | h) | h)
        · exact Or.inr ⟨q, Or.inl rfl, h.symm⟩
        · exact Or.inl h
        · exact Or.inr ⟨h.choose, Or.inr h.choose_spec.1, h.choose_spec.2⟩
      · rintro (h | ⟨q', hq', hk⟩)
        · exact Or.inl (Or.inr h)
        · rcases hq' with h' | h'
          · exact Or.inl (Or.inl (by rw [← hk, h']))
          · exact Or.inr ⟨q', h', hk⟩

/-- C3. For every sequence of ContactLogged events processed in one
session (starting from the fresh state), and every dedup key, the relay
queue receives exactly the *first* event carrying that key — so at most
one event per `(timeOff second, callsign, band)` key is admitted, the
first one is both recorded in the dedup set and queued, and every later
event with an equal key is dropped before reaching the relay queue. -/
theorem dedup_admits_first_only (es : List QsoData)
    (k : Int × List Nat × Band) :
    ((run_qso_pipeline initState es).1.qso_queue.filter
        (fun q => decide (dedupKey q = k))) =
      (es.filter (fun q => decide (dedupKey q = k))).take 1 ∧
      (k ∈ (run_qso_pipeline initState es).1.logged_qsos ↔
        ∃ q ∈ es, dedupKey q = k) := by
  constructor
  · have h := run_qso_pipeline_queue_filter es initState k
    simpa [initState] using h
  · have h := run_qso_pipeline_logged_iff es initState k
    simpa [initState] using h

/-! ### Claim C1 — when the durable ADIF write happens -/

/-- C1, counterexample. The claim says the durable ADIF write
happens for *every* observed ContactLogged event, also for events the
dedup filter rejects.  Processing the same event twice from the fresh
state writes only one ADIF record: the second observed event produces
no `adifWrite`, only a duplicate drop. -/
theorem adif_write_skipped_for_duplicate :
    (run_qso_pipeline initState [e0, e0]).1.adif_log = [e0] ∧
      (run_qso_pipeline initState [e0, e0]).2 =
        [Effect.adifWrite e0, Effect.enqueue e0, Effect.dropDuplicate e0] := by
  constructor <;> rfl

/-- C1, amended. For every ContactLogged event *admitted by the
dedup filter*, the durable ADIF append is performed unconditionally and
before the event is queued for relay (the handler emits `adifWrite`
strictly before `enqueue`, and consults no relay or backend outcome);
an event the filter rejects is dropped before the write and is neither
written to the ADIF backup nor queued. -/
theorem adif_write_before_queue_for_admitted (st : UpdaterState)
    (q : QsoData) (h : dedupKey q ∉ st.logged_qsos) :
    (handle_qso_logged st q).1.adif_log = st.adif_log ++ [q] ∧
      (handle_qso_logged st q).1.qso_queue = st.qso_queue ++ [q] ∧
      (handle_qso_logged st q).2 = [Effect.adifWrite q, Effect.enqueue q] ∧
      ∀ st' q', dedupKey q' ∈ st'.logged_qsos →
        (handle_qso_logged st' q').1.adif_log = st'.adif_log ∧
          (handle_qso_logged st' q').1.qso_queue = st'.qso_queue ∧
          (handle_qso_logged st' q').2 = [Effect.dropDuplicate q'] := by
  refine ⟨by simp [handle_qso_logged, h], by simp [handle_qso_logged, h],
    by simp [handle_qso_logged, h], ?_⟩
  intro st' q' h'
  refine ⟨by simp [handle_qso_logged, h'], by simp [handle_qso_logged, h'],
    by simp [handle_qso_logged, h']⟩

/-- Witness for the amended C1 at a concrete input. -/
theorem adif_write_before_queue_for_admitted_witness :
    dedupKey e0 ∉ initState.logged_qsos ∧
      (handle_qso_logged initState e0).1.adif_log = [e0] ∧
      (handle_qso_logged initState e0).2 =
        [Effect.adifWrite e0, Effect.enqueue e0] := by
  have h : dedupKey e0 ∉ initState.logged_qsos := by
    simp [initState]
  have hmain := adif_write_before_queue_for_admitted initState e0 h
  exact ⟨h, by simpa [initState] using hmain.1, hmain.2.2.1⟩

/-! ### Claim C7 — cyclic sequence offsets -/

theorem offsetsOf_relay_run (es : List QsoData) (out : Nat → Bool)
    (off : Nat) (h : off ≤ 59) :
    offsetsOf (relay_run off es out) =
      (List.range es.length).map (fun i => (off + i) % 60) := by
  induction es generalizing off out with
  | nil => simp [relay_run, offsetsOf]
  | cons q qs ih =>
    have hnext : nextOffset off = (off + 1) % 60 := by
      unfold nextOffset
      split <;> omega
    have hle : nextOffset off ≤ 59 := by
      unfold nextOffset
      split <;> omega
    simp only [relay_run, offsetsOf]
    rw [ih (fun n => out (n + 1)) (nextOffset off) hle]
    rw [List.length_cons, List.range_succ_eq_map, List.map_cons, List.map_map]
    congr 1
    · omega
    · refine List.map_congr_left ?_
      intro i _
      simp only [Function.comp]
      rw [hnext]
      omega

set_option maxRecDepth 4000 in
/-- C7, counterexample.  The claim asserts that for *all* sequences
of N contacts sharing one callsign and nominal second the delivered
sequence offsets are pairwise distinct modulo 60.  Sixty-one copies of
the same contact (same callsign, same time-off second) delivered from a
fresh relay thread receive offsets 0,1,...,59,0: the 1st and the 61st
delivery both get offset 0, so the offsets are not pairwise distinct
modulo 60. -/
theorem relay_offsets_repeat_after_sixty :
    ¬ (offsetsOf (relay_run 0 (List.replicate 61 e0)
          (fun _ => true))).Pairwise (fun a b => a % 60 ≠ b % 60) ∧
      (offsetsOf (relay_run 0 (List.replicate 61 e0) (fun _ => true)))[0]? =
        some 0 ∧
      (offsetsOf (relay_run 0 (List.replicate 61 e0) (fun _ => true)))[60]? =
        some 0 := by
  refine ⟨by decide, by decide, by decide⟩

/-- C7, amended.  The relay worker assigns the i-th delivered
contact the offset `i % 60` (a cyclic counter over 0–59 starting at 0,
incremented once per delivered contact), and `_build_adif_for_n1mm`
adds the assigned offset as whole seconds to the contact's nominal
time-off in the outbound record; consequently the offsets of any run of
at most 60 consecutively delivered contacts — in particular of N ≤ 60
contacts sharing one callsign and nominal second — are pairwise
distinct modulo 60, while 61 or more deliveries necessarily repeat. -/
theorem relay_offsets_cyclic (es : List QsoData) (out : Nat → Bool) :
    offsetsOf (relay_run 0 es out) =
        (List.range es.length).map (fun i => i % 60) ∧
      (∀ q off, (build_adif_for_n1mm q off).qso_time =
        q.datetime_off + (off : Int) * 1000) ∧
      (es.length ≤ 60 →
        (offsetsOf (relay_run 0 es out)).Pairwise
          (fun a b => a % 60 ≠ b % 60)) := by
  have hform := offsetsOf_relay_run es out 0 (by omega)
  simp only [Nat.zero_add] at hform
  refine ⟨hform, fun q off => rfl, ?_⟩
  intro hlen
  rw [hform, List.pairwise_map]
  refine (List.pairwise_lt_range _).imp_of_mem ?_
  intro a b ha hb hab
  have ha' : a < es.length := List.mem_range.mp ha
  have hb' : b < es.length := List.mem_range.mp hb
  omega

/-- Witness for the amended C7 at a concrete input: three contacts
sharing one callsign and nominal second receive offsets 0, 1, 2. -/
theorem relay_offsets_cyclic_witness :
    ([e0, e0, e0] : List QsoData).length ≤ 60 ∧
      (offsetsOf (relay_run 0 [e0, e0, e0] (fun _ => false))).Pairwise
        (fun a b => a % 60 ≠ b % 60) ∧
      (build_adif_for_n1mm e0 2).qso_time = 3000 := by
  have h := relay_offsets_cyclic [e0, e0, e0] (fun _ => false)
  exact ⟨by decide, h.2.2 (by decide), (h.2.1 e0 2).trans (by decide)⟩

/-! ### Claim C9 — packed date-time decoding -/

/-- C9.  Decoding a packed date-time consumes exactly 13 bytes
(8-byte big-endian Julian day J, 4-byte big-endian milliseconds m,
1-byte time-spec flag) — the result only depends on those 13 bytes and
the returned offset advances by 13 — and yields the timestamp
1970-01-01T00:00:00 plus (J − 2440588) days plus m milliseconds; in
particular Julian day 2440588 with 0 milliseconds decodes to exactly
1970-01-01T00:00:00 (epoch value 0). -/
theorem qdatetime_thirteen_bytes_epoch :
    (∀ data offset, offset + 13 ≤ data.length →
        decode_qdatetime data offset =
          .ok (((beVal (slice data offset 8) : Int) - 2440588) * 86400000 +
                (beVal (slice data (offset + 8) 4) : Int), offset + 13) ∧
          decode_qdatetime data offset =
            decode_qdatetime (data.take (offset + 13)) offset) ∧
      (∀ data offset, data.length < offset + 13 →
        decode_qdatetime data offset =
          .error "Not enough data for QDateTime") ∧
      decode_qdatetime (beBytes 8 2440588 ++ (beBytes 4 0 ++ [1])) 0 =
        .ok (0, 13) := by
  refine ⟨?_, ?_, by rfl⟩
  · intro data offset h
    have hlen : (data.take (offset + 13)).length = offset + 13 := by
      simp
      omega
    have hs8 : slice (data.take (offset + 13)) offset 8 =
        slice data offset 8 := by
      unfold slice
      rw [List.drop_take]
      rw [List.take_take]
      congr 1
      omega
    have hs4 : slice (data.take (offset + 13)) (offset + 8) 4 =
        slice data (offset + 8) 4 := by
      unfold slice
      rw [List.drop_take]
      rw [List.take_take]
      congr 1
      omega
    constructor
    · unfold decode_qdatetime
      rw [if_neg (by omega)]
    · unfold decode_qdatetime
      rw [if_neg (by omega), if_neg (by omega), hs8, hs4]
  · intro data offset h
    unfold decode_qdatetime
    rw [if_pos h]

/-- Witness for C9 at a concrete input: Julian day 2440589 with 500 ms
decodes to one day plus 500 ms after the epoch, consuming 13 bytes. -/
theorem qdatetime_thirteen_bytes_epoch_witness :
    0 + 13 ≤ (beBytes 8 2440589 ++ (beBytes 4 500 ++ [1])).length ∧
      decode_qdatetime (beBytes 8 2440589 ++ (beBytes 4 500 ++ [1])) 0 =
        .ok (86400500, 13) := by
  refine ⟨by decide, ?_⟩
  have h := (qdatetime_thirteen_bytes_epoch.1
    (beBytes 8 2440589 ++ (beBytes 4 500 ++ [1])) 0 (by decide)).1
  exact h.trans (by rfl)

/-! ### Claim C2 — decode then re-encode is byte-identical -/

/-- Decoding the bytes of an encoded string (from offset 0) recovers
the string and consumes the whole encoding. -/
theorem decode_encode_qstring (s : List Nat) (h : s.length < 0xFFFFFFFF) :
    decode_qstring (encode_qstring (some s)) 0 =
      .ok (s, (encode_qstring (some s)).length) := by
  have hmain := decode_qstring_at [] s [] h
  simpa using hmain

/-- Parsing the repository encoder's full message (trailing optional
propagation-mode segment present) recovers exactly the record of its
inputs. -/
theorem parse_build_qso_logged (wsjtx_id dx_call dx_grid mode rst_sent rst_rcvd my_call my_grid : List Nat)
    (freq_hz : Nat) (now : PyDateTime)
    (hid : wsjtx_id.length < 0xFFFFFFFF)
    (hdxc : dx_call.length < 0xFFFFFFFF)
    (hdxg : dx_grid.length < 0xFFFFFFFF)
    (hmode : mode.length < 0xFFFFFFFF)
    (hrsts : rst_sent.length < 0xFFFFFFFF)
    (hrstr : rst_rcvd.length < 0xFFFFFFFF)
    (hmyc : my_call.length < 0xFFFFFFFF)
    (hmyg : my_grid.length < 0xFFFFFFFF)
    (hfreq : freq_hz < 18446744073709551616)
    (hnow : WFPyDt now) :
    parse_qso_logged (build_qso_logged_message wsjtx_id dx_call dx_grid freq_hz mode rst_sent rst_rcvd my_call my_grid now) =
      some (qso_logged_record wsjtx_id dx_call dx_grid freq_hz mode rst_sent rst_rcvd my_call my_grid now) := by
  have h1 : decode_qstring (build_qso_logged_message wsjtx_id dx_call dx_grid freq_hz mode rst_sent rst_rcvd my_call my_grid now) (12) =
      .ok (wsjtx_id, 12 + (encode_qstring (some wsjtx_id)).length) := by
    have hD : build_qso_logged_message wsjtx_id dx_call dx_grid freq_hz mode rst_sent rst_rcvd my_call my_grid now =
        (beBytes 4 MAGIC ++ beBytes 4 SCHEMA ++ beBytes 4 MSG_QSO_LOGGED) ++
          (encode_qstring (some wsjtx_id) ++ (encode_qdatetime now ++ (encode_qstring (some dx_call) ++ (encode_qstring (some dx_grid) ++ (beBytes 8 freq_hz ++ (encode_qstring (some mode) ++ (encode_qstring (some rst_sent) ++ (encode_qstring (some rst_rcvd) ++ (encode_qstring (some ([] : List Nat)) ++ (encode_qstring (some ([] : List Nat)) ++ (encode_qstring (some ([] : List Nat)) ++ (encode_qdatetime now ++ (encode_qstring (some my_call) ++ (encode_qstring (some my_call) ++ (encode_qstring (some my_grid) ++ (encode_qstring (some my_grid) ++ (encode_qstring (some dx_grid) ++ (encode_qstring (some ([] : List Nat)) ++ ([] : List Nat))))))))))))))))))) := by
      simp [build_qso_logged_message, List.append_assoc]
    have hP : (beBytes 4 MAGIC ++ beBytes 4 SCHEMA ++ beBytes 4 MSG_QSO_LOGGED : List Nat).length = 12 := by
      simp [beBytes_length, encode_qdatetime_length]
      try omega
    rw [hD, ← hP]
    exact decode_qstring_at _ wsjtx_id _ hid
  have h2 : decode_qdatetime (build_qso_logged_message wsjtx_id dx_call dx_grid freq_hz mode rst_sent rst_rcvd my_call my_grid now) (12 + (encode_qstring (some wsjtx_id)).length) =
      .ok (qdatetimeValue now, 12 + (encode_qstring (some wsjtx_id)).length + 13) := by
    have hD : build_qso_logged_message wsjtx_id dx_call dx_grid freq_hz mode rst_sent rst_rcvd my_call my_grid now =
        (beBytes 4 MAGIC ++ beBytes 4 SCHEMA ++ beBytes 4 MSG_QSO_LOGGED ++
        encode_qstring (some wsjtx_id)) ++
          (encode_qdatetime now ++ (encode_qstring (some dx_call) ++ (encode_qstring (some dx_grid) ++ (beBytes 8 freq_hz ++ (encode_qstring (some mode) ++ (encode_qstring (some rst_sent) ++ (encode_qstring (some rst_rcvd) ++ (encode_qstring (some ([] : List Nat)) ++ (encode_qstring (some ([] : List Nat)) ++ (encode_qstring (some ([] : List Nat)) ++ (encode_qdatetime now ++ (encode_qstring (some my_call) ++ (encode_qstring (some my_call) ++ (encode_qstring (some my_grid) ++ (encode_qstring (some my_grid) ++ (encode_qstring (some dx_grid) ++ (encode_qstring (some ([] : List Nat)) ++ ([] : List Nat)))))))))))))))))) := by
      simp [build_qso_logged_message, List.append_assoc]
    have hP : (beBytes 4 MAGIC ++ beBytes 4 SCHEMA ++ beBytes 4 MSG_QSO_LOGGED ++
        encode_qstring (some wsjtx_id) : List Nat).length = 12 + (encode_qstring (some wsjtx_id)).length := by
      simp [beBytes_length, encode_qdatetime_length]
      try omega
    rw [hD, ← hP]
    exact decode_qdatetime_src_at _ now _ hnow
  have h3 : decode_qstring (build_qso_logged_message wsjtx_id dx_call dx_grid freq_hz mode rst_sent rst_rcvd my_call my_grid now) (12 + (encode_qstring (some wsjtx_id)).length + 13) =
      .ok (dx_call, 12 + (encode_qstring (some wsjtx_id)).length + 13 + (encode_qstring (some dx_call)).length) := by
    have hD : build_qso_logged_message wsjtx_id dx_call dx_grid freq_hz mode rst_sent rst_rcvd my_call my_grid now =
        (beBytes 4 MAGIC ++ beBytes 4 SCHEMA ++ beBytes 4 MSG_QSO_LOGGED ++
        encode_qstring (some wsjtx_id) ++
        encode_qdatetime now) ++
          (encode_qstring (some dx_call) ++ (encode_qstring (some dx_grid) ++ (beBytes 8 freq_hz ++ (encode_qstring (some mode) ++ (encode_qstring (some rst_sent) ++ (encode_qstring (some rst_rcvd) ++ (encode_qstring (some ([] : List Nat)) ++ (encode_qstring (some ([] : List Nat)) ++ (encode_qstring (some ([] : List Nat)) ++ (encode_qdatetime now ++ (encode_qstring (some my_call) ++ (encode_qstring (some my_call) ++ (encode_qstring (some my_grid) ++ (encode_qstring (some my_grid) ++ (encode_qstring (some dx_grid) ++ (encode_qstring (some ([] : List Nat)) ++ ([] : List Nat))))))))))))))))) := by
      simp [build_qso_logged_message, List.append_assoc]
    have hP : (beBytes 4 MAGIC ++ beBytes 4 SCHEMA ++ beBytes 4 MSG_QSO_LOGGED ++
        encode_qstring (some wsjtx_id) ++
        encode_qdatetime now : List Nat).length = 12 + (encode_qstring (some wsjtx_id)).length + 13 := by
      simp [beBytes_length, encode_qdatetime_length]
      try omega
    rw [hD, ← hP]
    exact decode_qstring_at _ dx_call _ hdxc
  have h4 : decode_qstring (build_qso_logged_message wsjtx_id dx_call dx_grid freq_hz mode rst_sent rst_rcvd my_call my_grid now) (12 + (encode_qstring (some wsjtx_id)).length + 13 + (encode_qstring (some dx_call)).length) =
      .ok (dx_grid, 12 + (encode_qstring (some wsjtx_id)).length + 13 + (encode_qstring (some dx_call)).length + (encode_qstring (some dx_grid)).length) := by
    have hD : build_qso_logged_message wsjtx_id dx_call dx_grid freq_hz mode rst_sent rst_rcvd my_call my_grid now =
        (beBytes 4 MAGIC ++ beBytes 4 SCHEMA ++ beBytes 4 MSG_QSO_LOGGED ++
        encode_qstring (some wsjtx_id) ++
        encode_qdatetime now ++
        encode_qstring (some dx_call)) ++
          (encode_qstring (some dx_grid) ++ (beBytes 8 freq_hz ++ (encode_qstring (some mode) ++ (encode_qstring (some rst_sent) ++ (encode_qstring (some rst_rcvd) ++ (encode_qstring (some ([] : List Nat)) ++ (encode_qstring (some ([] : List Nat)) ++ (encode_qstring (some ([] : List Nat)) ++ (encode_qdatetime now ++ (encode_qstring (some my_call) ++ (encode_qstring (some my_call) ++ (encode_qstring (some my_grid) ++ (encode_qstring (some my_grid) ++ (encode_qstring (some dx_grid) ++ (encode_qstring (some ([] : List Nat)) ++ ([] : List Nat)))))))))))))))) := by
      simp [build_qso_logged_message, List.append_assoc]
    have hP : (beBytes 4 MAGIC ++ beBytes 4 SCHEMA ++ beBytes 4 MSG_QSO_LOGGED ++
        encode_qstring (some wsjtx_id) ++
        encode_qdatetime now ++
        encode_qstring (some dx_call) : List Nat).length = 12 + (encode_qstring (some wsjtx_id)).length + 13 + (encode_qstring (some dx_call)).length := by
      simp [beBytes_length, encode_qdatetime_length]
      try omega
    rw [hD, ← hP]
    exact decode_qstring_at _ dx_grid _ hdxg
  have h5 : decode_quint64 (build_qso_logged_message wsjtx_id dx_call dx_grid freq_hz mode rst_sent rst_rcvd my_call my_grid now) (12 + (encode_qstring (some wsjtx_id)).length + 13 + (encode_qstring (some dx_call)).length + (encode_qstring (some dx_grid)).length) =
      .ok (freq_hz, 12 + (encode_qstring (some wsjtx_id)).length + 13 + (encode_qstring (some dx_call)).length + (encode_qstring (some dx_grid)).length + 8) := by
    have hD : build_qso_logged_message wsjtx_id dx_call dx_grid freq_hz mode rst_sent rst_rcvd my_call my_grid now =
        (beBytes 4 MAGIC ++ beBytes 4 SCHEMA ++ beBytes 4 MSG_QSO_LOGGED ++
        encode_qstring (some wsjtx_id) ++
        encode_qdatetime now ++
        encode_qstring (some dx_call) ++
        encode_qstring (some dx_grid)) ++
          (beBytes 8 freq_hz ++ (encode_qstring (some mode) ++ (encode_qstring (some rst_sent) ++ (encode_qstring (some rst_rcvd) ++ (encode_qstring (some ([] : List Nat)) ++ (encode_qstring (some ([] : List Nat)) ++ (encode_qstring (some ([] : List Nat)) ++ (encode_qdatetime now ++ (encode_qstring (some my_call) ++ (encode_qstring (some my_call) ++ (encode_qstring (some my_grid) ++ (encode_qstring (some my_grid) ++ (encode_qstring (some dx_grid) ++ (encode_qstring (some ([] : List Nat)) ++ ([] : List Nat))))))))))))))) := by
      simp [build_qso_logged_message, List.append_assoc]
    have hP : (beBytes 4 MAGIC ++ beBytes 4 SCHEMA ++ beBytes 4 MSG_QSO_LOGGED ++
        encode_qstring (some wsjtx_id) ++
        encode_qdatetime now ++
        encode_qstring (some dx_call) ++
        encode_qstring (some dx_grid) : List Nat).length = 12 + (encode_qstring (some wsjtx_id)).length + 13 + (encode_qstring (some dx_call)).length + (encode_qstring (some dx_grid)).length := by
      simp [beBytes_length, encode_qdatetime_length]
      try omega
    rw [hD, ← hP]
    exact decode_quint64_at _ freq_hz _ hfreq
  have h6 : decode_qstring (build_qso_logged_message wsjtx_id dx_call dx_grid freq_hz mode rst_sent rst_rcvd my_call my_grid now) (12 + (encode_qstring (some wsjtx_id)).length + 13 + (encode_qstring (some dx_call)).length + (encode_qstring (some dx_grid)).length + 8) =
      .ok (mode, 12 + (encode_qstring (some wsjtx_id)).length + 13 + (encode_qstring (some dx_call)).length + (encode_qstring (some dx_grid)).length + 8 + (encode_qstring (some mode)).length) := by
    have hD : build_qso_logged_message wsjtx_id dx_call dx_grid freq_hz mode rst_sent rst_rcvd my_call my_grid now =
        (beBytes 4 MAGIC ++ beBytes 4 SCHEMA ++ beBytes 4 MSG_QSO_LOGGED ++
        encode_qstring (some wsjtx_id) ++
        encode_qdatetime now ++
        encode_qstring (some dx_call) ++
        encode_qstring (some dx_grid) ++
        beBytes 8 freq_hz) ++
          (encode_qstring (some mode) ++ (encode_qstring (some rst_sent) ++ (encode_qstring (some rst_rcvd) ++ (encode_qstring (some ([] : List Nat)) ++ (encode_qstring (some ([] : List Nat)) ++ (encode_qstring (some ([] : List Nat)) ++ (encode_qdatetime now ++ (encode_qstring (some my_call) ++ (encode_qstring (some my_call) ++ (encode_qstring (some my_grid) ++ (encode_qstring (some my_grid) ++ (encode_qstring (some dx_grid) ++ (encode_qstring (some ([] : List Nat)) ++ ([] : List Nat)))))))))))))) := by
      simp [build_qso_logged_message, List.append_assoc]
    have hP : (beBytes 4 MAGIC ++ beBytes 4 SCHEMA ++ beBytes 4 MSG_QSO_LOGGED ++
        encode_qstring (some wsjtx_id) ++
        encode_qdatetime now ++
        encode_qstring (some dx_call) ++
        encode_qstring (some dx_grid) ++
        beBytes 8 freq_hz : List Nat).length = 12 + (encode_qstring (some wsjtx_id)).length + 13 + (encode_qstring (some dx_call)).length + (encode_qstring (some dx_grid)).length + 8 := by
      simp [beBytes_length, encode_qdatetime_length]
      try omega
    rw [hD, ← hP]
    exact decode_qstring_at _ mode _ hmode
  have h7 : decode_qstring (build_qso_logged_message wsjtx_id dx_call dx_grid freq_hz mode rst_sent rst_rcvd my_call my_grid now) (12 + (encode_qstring (some wsjtx_id)).length + 13 + (encode_qstring (some dx_call)).length + (encode_qstring (some dx_grid)).length + 8 + (encode_qstring (some mode)).length) =
      .ok (rst_sent, 12 + (encode_qstring (some wsjtx_id)).length + 13 + (encode_qstring (some dx_call)).length + (encode_qstring (some dx_grid)).length + 8 + (encode_qstring (some mode)).length + (encode_qstring (some rst_sent)).length) := by
    have hD : build_qso_logged_message wsjtx_id dx_call dx_grid freq_hz mode rst_sent rst_rcvd my_call my_grid now =
        (beBytes 4 MAGIC ++ beBytes 4 SCHEMA ++ beBytes 4 MSG_QSO_LOGGED ++
        encode_qstring (some wsjtx_id) ++
        encode_qdatetime now ++
        encode_qstring (some dx_call) ++
        encode_qstring (some dx_grid) ++
        beBytes 8 freq_hz ++
        encode_qstring (some mode)) ++
          (encode_qstring (some rst_sent) ++ (encode_qstring (some rst_rcvd) ++ (encode_qstring (some ([] : List Nat)) ++ (encode_qstring (some ([] : List Nat)) ++ (encode_qstring (some ([] : List Nat)) ++ (encode_qdatetime now ++ (encode_qstring (some my_call) ++ (encode_qstring (some my_call) ++ (encode_qstring (some my_grid) ++ (encode_qstring (some my_grid) ++ (encode_qstring (some dx_grid) ++ (encode_qstring (some ([] : List Nat)) ++ ([] : List Nat))))))))))))) := by
      simp [build_qso_logged_message, List.append_assoc]
    have hP : (beBytes 4 MAGIC ++ beBytes 4 SCHEMA ++ beBytes 4 MSG_QSO_LOGGED ++
        encode_qstring (some wsjtx_id) ++
        encode_qdatetime now ++
        encode_qstring (some dx_call) ++
        encode_qstring (some dx_grid) ++
        beBytes 8 freq_hz ++
        encode_qstring (some mode) : List Nat).length = 12 + (encode_qstring (some wsjtx_id)).length + 13 + (encode_qstring (some dx_call)).length + (encode_qstring (some dx_grid)).length + 8 + (encode_qstring (some mode)).length := by
      simp [beBytes_length, encode_qdatetime_length]
      try omega
    rw [hD, ← hP]
    exact decode_qstring_at _ rst_sent _ hrsts
  have h8 : decode_qstring (build_qso_logged_message wsjtx_id dx_call dx_grid freq_hz mode rst_sent rst_rcvd my_call my_grid now) (12 + (encode_qstring (some wsjtx_id)).length + 13 + (encode_qstring (some dx_call)).length + (encode_qstring (some dx_grid)).length + 8 + (encode_qstring (some mode)).length + (encode_qstring (some rst_sent)).length) =
      .ok (rst_rcvd, 12 + (encode_qstring (some wsjtx_id)).length + 13 + (encode_qstring (some dx_call)).length + (encode_qstring (some dx_grid)).length + 8 + (encode_qstring (some mode)).length + (encode_qstring (some rst_sent)).length + (encode_qstring (some rst_rcvd)).length) := by
    have hD : build_qso_logged_message wsjtx_id dx_call dx_grid freq_hz mode rst_sent rst_rcvd my_call my_grid now =
        (beBytes 4 MAGIC ++ beBytes 4 SCHEMA ++ beBytes 4 MSG_QSO_LOGGED ++
        encode_qstring (some wsjtx_id) ++
        encode_qdatetime now ++
        encode_qstring (some dx_call) ++
        encode_qstring (some dx_grid) ++
        beBytes 8 freq_hz ++
        encode_qstring (some mode) ++
        encode_qstring (some rst_sent)) ++
          (encode_qstring (some rst_rcvd) ++ (encode_qstring (some ([] : List Nat)) ++ (encode_qstring (some ([] : List Nat)) ++ (encode_qstring (some ([] : List Nat)) ++ (encode_qdatetime now ++ (encode_qstring (some my_call) ++ (encode_qstring (some my_call) ++ (encode_qstring (some my_grid) ++ (encode_qstring (some my_grid) ++ (encode_qstring (some dx_grid) ++ (encode_qstring (some ([] : List Nat)) ++ ([] : List Nat)))))))))))) := by
      simp [build_qso_logged_message, List.append_assoc]
    have hP : (beBytes 4 MAGIC ++ beBytes 4 SCHEMA ++ beBytes 4 MSG_QSO_LOGGED ++
        encode_qstring (some wsjtx_id) ++
        encode_qdatetime now ++
        encode_qstring (some dx_call) ++
        encode_qstring (some dx_grid) ++
        beBytes 8 freq_hz ++
        encode_qstring (some mode) ++
        encode_qstring (some rst_sent) : List Nat).length = 12 + (encode_qstring (some wsjtx_id)).length + 13 + (encode_qstring (some dx_call)).length + (encode_qstring (some dx_grid)).length + 8 + (encode_qstring (some mode)).length + (encode_qstring (some rst_sent)).length := by
      simp [beBytes_length, encode_qdatetime_length]
      try omega
    rw [hD, ← hP]
    exact decode_qstring_at _ rst_rcvd _ hrstr
  have h9 : decode_qstring (build_qso_logged_message wsjtx_id dx_call dx_grid freq_hz mode rst_sent rst_rcvd my_call my_grid now) (12 + (encode_qstring (some wsjtx_id)).length + 13 + (encode_qstring (some dx_call)).length + (encode_qstring (some dx_grid)).length + 8 + (encode_qstring (some mode)).length + (encode_qstring (some rst_sent)).length + (encode_qstring (some rst_rcvd)).length) =
      .ok (([] : List Nat), 12 + (encode_qstring (some wsjtx_id)).length + 13 + (encode_qstring (some dx_call)).length + (encode_qstring (some dx_grid)).length + 8 + (encode_qstring (some mode)).length + (encode_qstring (some rst_sent)).length + (encode_qstring (some rst_rcvd)).length + (encode_qstring (some ([] : List Nat))).length) := by
    have hD : build_qso_logged_message wsjtx_id dx_call dx_grid freq_hz mode rst_sent rst_rcvd my_call my_grid now =
        (beBytes 4 MAGIC ++ beBytes 4 SCHEMA ++ beBytes 4 MSG_QSO_LOGGED ++
        encode_qstring (some wsjtx_id) ++
        encode_qdatetime now ++
        encode_qstring (some dx_call) ++
        encode_qstring (some dx_grid) ++
        beBytes 8 freq_hz ++
        encode_qstring (some mode) ++
        encode_qstring (some rst_sent) ++
        encode_qstring (some rst_rcvd)) ++
          (encode_qstring (some ([] : List Nat)) ++ (encode_qstring (some ([] : List Nat)) ++ (encode_qstring (some ([] : List Nat)) ++ (encode_qdatetime now ++ (encode_qstring (some my_call) ++ (encode_qstring (some my_call) ++ (encode_qstring (some my_grid) ++ (encode_qstring (some my_grid) ++ (encode_qstring (some dx_grid) ++ (encode_qstring (some ([] : List Nat)) ++ ([] : List Nat))))))))))) := by
      simp [build_qso_logged_message, List.append_assoc]
    have hP : (beBytes 4 MAGIC ++ beBytes 4 SCHEMA ++ beBytes 4 MSG_QSO_LOGGED ++
        encode_qstring (some wsjtx_id) ++
        encode_qdatetime now ++
        encode_qstring (some dx_call) ++
        encode_qstring (some dx_grid) ++
        beBytes 8 freq_hz ++
        encode_qstring (some mode) ++
        encode_qstring (some rst_sent) ++
        encode_qstring (some rst_rcvd) : List Nat).length = 12 + (encode_qstring (some wsjtx_id)).length + 13 + (encode_qstring (some dx_call)).length + (encode_qstring (some dx_grid)).length + 8 + (encode_qstring (some mode)).length + (encode_qstring (some rst_sent)).length + (encode_qstring (some rst_rcvd)).length := by
      simp [beBytes_length, encode_qdatetime_length]
      try omega
    rw [hD, ← hP]
    exact decode_qstring_at _ ([] : List Nat) _ (by decide)
  have h10 : decode_qstring (build_qso_logged_message wsjtx_id dx_call dx_grid freq_hz mode rst_sent rst_rcvd my_call my_grid now) (12 + (encode_qstring (some wsjtx_id)).length + 13 + (encode_qstring (some dx_call)).length + (encode_qstring (some dx_grid)).length + 8 + (encode_qstring (some mode)).length + (encode_qstring (some rst_sent)).length + (encode_qstring (some rst_rcvd)).length + (encode_qstring (some ([] : List Nat))).length) =
      .ok (([] : List Nat), 12 + (encode_qstring (some wsjtx_id)).length + 13 + (encode_qstring (some dx_call)).length + (encode_qstring (some dx_grid)).length + 8 + (encode_qstring (some mode)).length + (encode_qstring (some rst_sent)).length + (encode_qstring (some rst_rcvd)).length + (encode_qstring (some ([] : List Nat))).length + (encode_qstring (some ([] : List Nat))).length) := by
    have hD : build_qso_logged_message wsjtx_id dx_call dx_grid freq_hz mode rst_sent rst_rcvd my_call my_grid now =
        (beBytes 4 MAGIC ++ beBytes 4 SCHEMA ++ beBytes 4 MSG_QSO_LOGGED ++
        encode_qstring (some wsjtx_id) ++
        encode_qdatetime now ++
        encode_qstring (some dx_call) ++
        encode_qstring (some dx_grid) ++
        beBytes 8 freq_hz ++
        encode_qstring (some mode) ++
        encode_qstring (some rst_sent) ++
        encode_qstring (some rst_rcvd) ++
        encode_qstring (some ([] : List Nat))) ++
          (encode_qstring (some ([] : List Nat)) ++ (encode_qstring (some ([] : List Nat)) ++ (encode_qdatetime now ++ (encode_qstring (some my_call) ++ (encode_qstring (some my_call) ++ (encode_qstring (some my_grid) ++ (encode_qstring (some my_grid) ++ (encode_qstring (some dx_grid) ++ (encode_qstring (some ([] : List Nat)) ++ ([] : List Nat)))))))))) := by
      simp [build_qso_logged_message, List.append_assoc]
    have hP : (beBytes 4 MAGIC ++ beBytes 4 SCHEMA ++ beBytes 4 MSG_QSO_LOGGED ++
        encode_qstring (some wsjtx_id) ++
        encode_qdatetime now ++
        encode_qstring (some dx_call) ++
        encode_qstring (some dx_grid) ++
        beBytes 8 freq_hz ++
        encode_qstring (some mode) ++
        encode_qstring (some rst_sent) ++
        encode_qstring (some rst_rcvd) ++
        encode_qstring (some ([] : List Nat)) : List Nat).length = 12 + (encode_qstring (some wsjtx_id)).length + 13 + (encode_qstring (some dx_call)).length + (encode_qstring (some dx_grid)).length + 8 + (encode_qstring (some mode)).length + (encode_qstring (some rst_sent)).length + (encode_qstring (some rst_rcvd)).length + (encode_qstring (some ([] : List Nat))).length := by
      simp [beBytes_length, encode_qdatetime_length]
      try omega
    rw [hD, ← hP]
    exact decode_qstring_at _ ([] : List Nat) _ (by decide)
  have h11 : decode_qstring (build_qso_logged_message wsjtx_id dx_call dx_grid freq_hz mode rst_sent rst_rcvd my_call my_grid now) (12 + (encode_qstring (some wsjtx_id)).length + 13 + (encode_qstring (some dx_call)).length + (encode_qstring (some dx_grid)).length + 8 + (encode_qstring (some mode)).length + (encode_qstring (some rst_sent)).length + (encode_qstring (some rst_rcvd)).length + (encode_qstring (some ([] : List Nat))).length + (encode_qstring (some ([] : List Nat))).length) =
      .ok (([] : List Nat), 12 + (encode_qstring (some wsjtx_id)).length + 13 + (encode_qstring (some dx_call)).length + (encode_qstring (some dx_grid)).length + 8 + (encode_qstring (some mode)).length + (encode_qstring (some rst_sent)).length + (encode_qstring (some rst_rcvd)).length + (encode_qstring (some ([] : List Nat))).length + (encode_qstring (some ([] : List Nat))).length + (encode_qstring (some ([] : List Nat))).length) := by
    have hD : build_qso_logged_message wsjtx_id dx_call dx_grid freq_hz mode rst_sent rst_rcvd my_call my_grid now =
        (beBytes 4 MAGIC ++ beBytes 4 SCHEMA ++ beBytes 4 MSG_QSO_LOGGED ++
        encode_qstring (some wsjtx_id) ++
        encode_qdatetime now ++
        encode_qstring (some dx_call) ++
        encode_qstring (some dx_grid) ++
        beBytes 8 freq_hz ++
        encode_qstring (some mode) ++
        encode_qstring (some rst_sent) ++
        encode_qstring (some rst_rcvd) ++
        encode_qstring (some ([] : List Nat)) ++
        encode_qstring (some ([] : List Nat))) ++
          (encode_qstring (some ([] : List Nat)) ++ (encode_qdatetime now ++ (encode_qstring (some my_call) ++ (encode_qstring (some my_call) ++ (encode_qstring (some my_grid) ++ (encode_qstring (some my_grid) ++ (encode_qstring (some dx_grid) ++ (encode_qstring (some ([] : List Nat)) ++ ([] : List Nat))))))))) := by
      simp [build_qso_logged_message, List.append_assoc]
    have hP : (beBytes 4 MAGIC ++ beBytes 4 SCHEMA ++ beBytes 4 MSG_QSO_LOGGED ++
        encode_qstring (some wsjtx_id) ++
        encode_qdatetime now ++
        encode_qstring (some dx_call) ++
        encode_qstring (some dx_grid) ++
        beBytes 8 freq_hz ++
        encode_qstring (some mode) ++
        encode_qstring (some rst_sent) ++
        encode_qstring (some rst_rcvd) ++
        encode_qstring (some ([] : List Nat)) ++
        encode_qstring (some ([] : List Nat)) : List Nat).length = 12 + (encode_qstring (some wsjtx_id)).length + 13 + (encode_qstring (some dx_call)).length + (encode_qstring (some dx_grid)).length + 8 + (encode_qstring (some mode)).length + (encode_qstring (some rst_sent)).length + (encode_qstring (some rst_rcvd)).length + (encode_qstring (some ([] : List Nat))).length + (encode_qstring (some ([] : List Nat))).length := by
      simp [beBytes_length, encode_qdatetime_length]
      try omega
    rw [hD, ← hP]
    exact decode_qstring_at _ ([] : List Nat) _ (by decide)
  have h12 : decode_qdatetime (build_qso_logged_message wsjtx_id dx_call dx_grid freq_hz mode rst_sent rst_rcvd my_call my_grid now) (12 + (encode_qstring (some wsjtx_id)).length + 13 + (encode_qstring (some dx_call)).length + (encode_qstring (some dx_grid)).length + 8 + (encode_qstring (some mode)).length + (encode_qstring (some rst_sent)).length + (encode_qstring (some rst_rcvd)).length + (encode_qstring (some ([] : List Nat))).length + (encode_qstring (some ([] : List Nat))).length + (encode_qstring (some ([] : List Nat))).length) =
      .ok (qdatetimeValue now, 12 + (encode_qstring (some wsjtx_id)).length + 13 + (encode_qstring (some dx_call)).length + (encode_qstring (some dx_grid)).length + 8 + (encode_qstring (some mode)).length + (encode_qstring (some rst_sent)).length + (encode_qstring (some rst_rcvd)).length + (encode_qstring (some ([] : List Nat))).length + (encode_qstring (some ([] : List Nat))).length + (encode_qstring (some ([] : List Nat))).length + 13) := by
    have hD : build_qso_logged_message wsjtx_id dx_call dx_grid freq_hz mode rst_sent rst_rcvd my_call my_grid now =
        (beBytes 4 MAGIC ++ beBytes 4 SCHEMA ++ beBytes 4 MSG_QSO_LOGGED ++
        encode_qstring (some wsjtx_id) ++
        encode_qdatetime now ++
        encode_qstring (some dx_call) ++
        encode_qstring (some dx_grid) ++
        beBytes 8 freq_hz ++
        encode_qstring (some mode) ++
        encode_qstring (some rst_sent) ++
        encode_qstring (some rst_rcvd) ++
        encode_qstring (some ([] : List Nat)) ++
        encode_qstring (some ([] : List Nat)) ++
        encode_qstring (some ([] : List Nat))) ++
          (encode_qdatetime now ++ (encode_qstring (some my_call) ++ (encode_qstring (some my_call) ++ (encode_qstring (some my_grid) ++ (encode_qstring (some my_grid) ++ (encode_qstring (some dx_grid) ++ (encode_qstring (some ([] : List Nat)) ++ ([] : List Nat)))))))) := by
      simp [build_qso_logged_message, List.append_assoc]
    have hP : (beBytes 4 MAGIC ++ beBytes 4 SCHEMA ++ beBytes 4 MSG_QSO_LOGGED ++
        encode_qstring (some wsjtx_id) ++
        encode_qdatetime now ++
        encode_qstring (some dx_call) ++
        encode_qstring (some dx_grid) ++
        beBytes 8 freq_hz ++
        encode_qstring (some mode) ++
        encode_qstring (some rst_sent) ++
        encode_qstring (some rst_rcvd) ++
        encode_qstring (some ([] : List Nat)) ++
        encode_qstring (some ([] : List Nat)) ++
        encode_qstring (some ([] : List Nat)) : List Nat).length = 12 + (encode_qstring (some wsjtx_id)).length + 13 + (encode_qstring (some dx_call)).length + (encode_qstring (some dx_grid)).length + 8 + (encode_qstring (some mode)).length + (encode_qstring (some rst_sent)).length + (encode_qstring (some rst_rcvd)).length + (encode_qstring (some ([] : List Nat))).length + (encode_qstring (some ([] : List Nat))).length + (encode_qstring (some ([] : List Nat))).length := by
      simp [beBytes_length, encode_qdatetime_length]
      try omega
    rw [hD, ← hP]
    exact decode_qdatetime_src_at _ now _ hnow
  have h13 : decode_qstring (build_qso_logged_message wsjtx_id dx_call dx_grid freq_hz mode rst_sent rst_rcvd my_call my_grid now) (12 + (encode_qstring (some wsjtx_id)).length + 13 + (encode_qstring (some dx_call)).length + (encode_qstring (some dx_grid)).length + 8 + (encode_qstring (some mode)).length + (encode_qstring (some rst_sent)).length + (encode_qstring (some rst_rcvd)).length + (encode_qstring (some ([] : List Nat))).length + (encode_qstring (some ([] : List Nat))).length + (encode_qstring (some ([] : List Nat))).length + 13) =
      .ok (my_call, 12 + (encode_qstring (some wsjtx_id)).length + 13 + (encode_qstring (some dx_call)).length + (encode_qstring (some dx_grid)).length + 8 + (encode_qstring (some mode)).length + (encode_qstring (some rst_sent)).length + (encode_qstring (some rst_rcvd)).length + (encode_qstring (some ([] : List Nat))).length + (encode_qstring (some ([] : List Nat))).length + (encode_qstring (some ([] : List Nat))).length + 13 + (encode_qstring (some my_call)).length) := by
    have hD : build_qso_logged_message wsjtx_id dx_call dx_grid freq_hz mode rst_sent rst_rcvd my_call my_grid now =
        (beBytes 4 MAGIC ++ beBytes 4 SCHEMA ++ beBytes 4 MSG_QSO_LOGGED ++
        encode_qstring (some wsjtx_id) ++
        encode_qdatetime now ++
        encode_qstring (some dx_call) ++
        encode_qstring (some dx_grid) ++
        beBytes 8 freq_hz ++
        encode_qstring (some mode) ++
        encode_qstring (some rst_sent) ++
        encode_qstring (some rst_rcvd) ++
        encode_qstring (some ([] : List Nat)) ++
        encode_qstring (some ([] : List Nat)) ++
        encode_qstring (some ([] : List Nat)) ++
        encode_qdatetime now) ++
          (encode_qstring (some my_call) ++ (encode_qstring (some my_call) ++ (encode_qstring (some my_grid) ++ (encode_qstring (some my_grid) ++ (encode_qstring (some dx_grid) ++ (encode_qstring (some ([] : List Nat)) ++ ([] : List Nat))))))) := by
      simp [build_qso_logged_message, List.append_assoc]
    have hP : (beBytes 4 MAGIC ++ beBytes 4 SCHEMA ++ beBytes 4 MSG_QSO_LOGGED ++
        encode_qstring (some wsjtx_id) ++
        encode_qdatetime now ++
        encode_qstring (some dx_call) ++
        encode_qstring (some dx_grid) ++
        beBytes 8 freq_hz ++
        encode_qstring (some mode) ++
        encode_qstring (some rst_sent) ++
        encode_qstring (some rst_rcvd) ++
        encode_qstring (some ([] : List Nat)) ++
        encode_qstring (some ([] : List Nat)) ++
        encode_qstring (some ([] : List Nat)) ++
        encode_qdatetime now : List Nat).length = 12 + (encode_qstring (some wsjtx_id)).length + 13 + (encode_qstring (some dx_call)).length + (encode_qstring (some dx_grid)).length + 8 + (encode_qstring (some mode)).length + (encode_qstring (some rst_sent)).length + (encode_qstring (some rst_rcvd)).length + (encode_qstring (some ([] : List Nat))).length + (encode_qstring (some ([] : List Nat))).length + (encode_qstring (some ([] : List Nat))).length + 13 := by
      simp [beBytes_length, encode_qdatetime_length]
      try omega
    rw [hD, ← hP]
    exact decode_qstring_at _ my_call _ hmyc
  have h14 : decode_qstring (build_qso_logged_message wsjtx_id dx_call dx_grid freq_hz mode rst_sent rst_rcvd my_call my_grid now) (12 + (encode_qstring (some wsjtx_id)).length + 13 + (encode_qstring (some dx_call)).length + (encode_qstring (some dx_grid)).length + 8 + (encode_qstring (some mode)).length + (encode_qstring (some rst_sent)).length + (encode_qstring (some rst_rcvd)).length + (encode_qstring (some ([] : List Nat))).length + (encode_qstring (some ([] : List Nat))).length + (encode_qstring (some ([] : List Nat))).length + 13 + (encode_qstring (some my_call)).length) =
      .ok (my_call, 12 + (encode_qstring (some wsjtx_id)).length + 13 + (encode_qstring (some dx_call)).length + (encode_qstring (some dx_grid)).length + 8 + (encode_qstring (some mode)).length + (encode_qstring (some rst_sent)).length + (encode_qstring (some rst_rcvd)).length + (encode_qstring (some ([] : List Nat))).length + (encode_qstring (some ([] : List Nat))).length + (encode_qstring (some ([] : List Nat))).length + 13 + (encode_qstring (some my_call)).length + (encode_qstring (some my_call)).length) := by
    have hD : build_qso_logged_message wsjtx_id dx_call dx_grid freq_hz mode rst_sent rst_rcvd my_call my_grid now =
        (beBytes 4 MAGIC ++ beBytes 4 SCHEMA ++ beBytes 4 MSG_QSO_LOGGED ++
        encode_qstring (some wsjtx_id) ++
        encode_qdatetime now ++
        encode_qstring (some dx_call) ++
        encode_qstring (some dx_grid) ++
        beBytes 8 freq_hz ++
        encode_qstring (some mode) ++
        encode_qstring (some rst_sent) ++
        encode_qstring (some rst_rcvd) ++
        encode_qstring (some ([] : List Nat)) ++
        encode_qstring (some ([] : List Nat)) ++
        encode_qstring (some ([] : List Nat)) ++
        encode_qdatetime now ++
        encode_qstring (some my_call)) ++
          (encode_qstring (some my_call) ++ (encode_qstring (some my_grid) ++ (encode_qstring (some my_grid) ++ (encode_qstring (some dx_grid) ++ (encode_qstring (some ([] : List Nat)) ++ ([] : List Nat)))))) := by
      simp [build_qso_logged_message, List.append_assoc]
    have hP : (beBytes 4 MAGIC ++ beBytes 4 SCHEMA ++ beBytes 4 MSG_QSO_LOGGED ++
        encode_qstring (some wsjtx_id) ++
        encode_qdatetime now ++
        encode_qstring (some dx_call) ++
        encode_qstring (some dx_grid) ++
        beBytes 8 freq_hz ++
        encode_qstring (some mode) ++
        encode_qstring (some rst_sent) ++
        encode_qstring (some rst_rcvd) ++
        encode_qstring (some ([] : List Nat)) ++
        encode_qstring (some ([] : List Nat)) ++
        encode_qstring (some ([] : List Nat)) ++
        encode_qdatetime now ++
        encode_qstring (some my_call) : List Nat).length = 12 + (encode_qstring (some wsjtx_id)).length + 13 + (encode_qstring (some dx_call)).length + (encode_qstring (some dx_grid)).length + 8 + (encode_qstring (some mode)).length + (encode_qstring (some rst_sent)).length + (encode_qstring (some rst_rcvd)).length + (encode_qstring (some ([] : List Nat))).length + (encode_qstring (some ([] : List Nat))).length + (encode_qstring (some ([] : List Nat))).length + 13 + (encode_qstring (some my_call)).length := by
      simp [beBytes_length, encode_qdatetime_length]
      try omega
    rw [hD, ← hP]
    exact decode_qstring_at _ my_call _ hmyc
  have h15 : decode_qstring (build_qso_logged_message wsjtx_id dx_call dx_grid freq_hz mode rst_sent rst_rcvd my_call my_grid now) (12 + (encode_qstring (some wsjtx_id)).length + 13 + (encode_qstring (some dx_call)).length + (encode_qstring (some dx_grid)).length + 8 + (encode_qstring (some mode)).length + (encode_qstring (some rst_sent)).length + (encode_qstring (some rst_rcvd)).length + (encode_qstring (some ([] : List Nat))).length + (encode_qstring (some ([] : List Nat))).length + (encode_qstring (some ([] : List Nat))).length + 13 + (encode_qstring (some my_call)).length + (encode_qstring (some my_call)).length) =
      .ok (my_grid, 12 + (encode_qstring (some wsjtx_id)).length + 13 + (encode_qstring (some dx_call)).length + (encode_qstring (some dx_grid)).length + 8 + (encode_qstring (some mode)).length + (encode_qstring (some rst_sent)).length + (encode_qstring (some rst_rcvd)).length + (encode_qstring (some ([] : List Nat))).length + (encode_qstring (some ([] : List Nat))).length + (encode_qstring (some ([] : List Nat))).length + 13 + (encode_qstring (some my_call)).length + (encode_qstring (some my_call)).length + (encode_qstring (some my_grid)).length) := by
    have hD : build_qso_logged_message wsjtx_id dx_call dx_grid freq_hz mode rst_sent rst_rcvd my_call my_grid now =
        (beBytes 4 MAGIC ++ beBytes 4 SCHEMA ++ beBytes 4 MSG_QSO_LOGGED ++
        encode_qstring (some wsjtx_id) ++
        encode_qdatetime now ++
        encode_qstring (some dx_call) ++
        encode_qstring (some dx_grid) ++
        beBytes 8 freq_hz ++
        encode_qstring (some mode) ++
        encode_qstring (some rst_sent) ++
        encode_qstring (some rst_rcvd) ++
        encode_qstring (some ([] : List Nat)) ++
        encode_qstring (some ([] : List Nat)) ++
        encode_qstring (some ([] : List Nat)) ++
        encode_qdatetime now ++
        encode_qstring (some my_call) ++
        encode_qstring (some my_call)) ++
          (encode_qstring (some my_grid) ++ (encode_qstring (some my_grid) ++ (encode_qstring (some dx_grid) ++ (encode_qstring (some ([] : List Nat)) ++ ([] : List Nat))))) := by
      simp [build_qso_logged_message, List.append_assoc]
    have hP : (beBytes 4 MAGIC ++ beBytes 4 SCHEMA ++ beBytes 4 MSG_QSO_LOGGED ++
        encode_qstring (some wsjtx_id) ++
        encode_qdatetime now ++
        encode_qstring (some dx_call) ++
        encode_qstring (some dx_grid) ++
        beBytes 8 freq_hz ++
        encode_qstring (some mode) ++
        encode_qstring (some rst_sent) ++
        encode_qstring (some rst_rcvd) ++
        encode_qstring (some ([] : List Nat)) ++
        encode_qstring (some ([] : List Nat)) ++
        encode_qstring (some ([] : List Nat)) ++
        encode_qdatetime now ++
        encode_qstring (some my_call) ++
        encode_qstring (some my_call) : List Nat).length = 12 + (encode_qstring (some wsjtx_id)).length + 13 + (encode_qstring (some dx_call)).length + (encode_qstring (some dx_grid)).length + 8 + (encode_qstring (some mode)).length + (encode_qstring (some rst_sent)).length + (encode_qstring (some rst_rcvd)).length + (encode_qstring (some ([] : List Nat))).length + (encode_qstring (some ([] : List Nat))).length + (encode_qstring (some ([] : List Nat))).length + 13 + (encode_qstring (some my_call)).length + (encode_qstring (some my_call)).length := by
      simp [beBytes_length, encode_qdatetime_length]
      try omega
    rw [hD, ← hP]
    exact decode_qstring_at _ my_grid _ hmyg
  have h16 : decode_qstring (build_qso_logged_message wsjtx_id dx_call dx_grid freq_hz mode rst_sent rst_rcvd my_call my_grid now) (12 + (encode_qstring (some wsjtx_id)).length + 13 + (encode_qstring (some dx_call)).length + (encode_qstring (some dx_grid)).length + 8 + (encode_qstring (some mode)).length + (encode_qstring (some rst_sent)).length + (encode_qstring (some rst_rcvd)).length + (encode_qstring (some ([] : List Nat))).length + (encode_qstring (some ([] : List Nat))).length + (encode_qstring (some ([] : List Nat))).length + 13 + (encode_qstring (some my_call)).length + (encode_qstring (some my_call)).length + (encode_qstring (some my_grid)).length) =
      .ok (my_grid, 12 + (encode_qstring (some wsjtx_id)).length + 13 + (encode_qstring (some dx_call)).length + (encode_qstring (some dx_grid)).length + 8 + (encode_qstring (some mode)).length + (encode_qstring (some rst_sent)).length + (encode_qstring (some rst_rcvd)).length + (encode_qstring (some ([] : List Nat))).length + (encode_qstring (some ([] : List Nat))).length + (encode_qstring (some ([] : List Nat))).length + 13 + (encode_qstring (some my_call)).length + (encode_qstring (some my_call)).length + (encode_qstring (some my_grid)).length + (encode_qstring (some my_grid)).length) := by
    have hD : build_qso_logged_message wsjtx_id dx_call dx_grid freq_hz mode rst_sent rst_rcvd my_call my_grid now =
        (beBytes 4 MAGIC ++ beBytes 4 SCHEMA ++ beBytes 4 MSG_QSO_LOGGED ++
        encode_qstring (some wsjtx_id) ++
        encode_qdatetime now ++
        encode_qstring (some dx_call) ++
        encode_qstring (some dx_grid) ++
        beBytes 8 freq_hz ++
        encode_qstring (some mode) ++
        encode_qstring (some rst_sent) ++
        encode_qstring (some rst_rcvd) ++
        encode_qstring (some ([] : List Nat)) ++
        encode_qstring (some ([] : List Nat)) ++
        encode_qstring (some ([] : List Nat)) ++
        encode_qdatetime now ++
        encode_qstring (some my_call) ++
        encode_qstring (some my_call) ++
        encode_qstring (some my_grid)) ++
          (encode_qstring (some my_grid) ++ (encode_qstring (some dx_grid) ++ (encode_qstring (some ([] : List Nat)) ++ ([] : List Nat)))) := by
      simp [build_qso_logged_message, List.append_assoc]
    have hP : (beBytes 4 MAGIC ++ beBytes 4 SCHEMA ++ beBytes 4 MSG_QSO_LOGGED ++
        encode_qstring (some wsjtx_id) ++
        encode_qdatetime now ++
        encode_qstring (some dx_call) ++
        encode_qstring (some dx_grid) ++
        beBytes 8 freq_hz ++
        encode_qstring (some mode) ++
        encode_qstring (some rst_sent) ++
        encode_qstring (some rst_rcvd) ++
        encode_qstring (some ([] : List Nat)) ++
        encode_qstring (some ([] : List Nat)) ++
        encode_qstring (some ([] : List Nat)) ++
        encode_qdatetime now ++
        encode_qstring (some my_call) ++
        encode_qstring (some my_call) ++
        encode_qstring (some my_grid) : List Nat).length = 12 + (encode_qstring (some wsjtx_id)).length + 13 + (encode_qstring (some dx_call)).length + (encode_qstring (some dx_grid)).length + 8 + (encode_qstring (some mode)).length + (encode_qstring (some rst_sent)).length + (encode_qstring (some rst_rcvd)).length + (encode_qstring (some ([] : List Nat))).length + (encode_qstring (some ([] : List Nat))).length + (encode_qstring (some ([] : List Nat))).length + 13 + (encode_qstring (some my_call)).length + (encode_qstring (some my_call)).length + (encode_qstring (some my_grid)).length := by
      simp [beBytes_length, encode_qdatetime_length]
      try omega
    rw [hD, ← hP]
    exact decode_qstring_at _ my_grid _ hmyg
  have h17 : decode_qstring (build_qso_logged_message wsjtx_id dx_call dx_grid freq_hz mode rst_sent rst_rcvd my_call my_grid now) (12 + (encode_qstring (some wsjtx_id)).length + 13 + (encode_qstring (some dx_call)).length + (encode_qstring (some dx_grid)).length + 8 + (encode_qstring (some mode)).length + (encode_qstring (some rst_sent)).length + (encode_qstring (some rst_rcvd)).length + (encode_qstring (some ([] : List Nat))).length + (encode_qstring (some ([] : List Nat))).length + (encode_qstring (some ([] : List Nat))).length + 13 + (encode_qstring (some my_call)).length + (encode_qstring (some my_call)).length + (encode_qstring (some my_grid)).length + (encode_qstring (some my_grid)).length) =
      .ok (dx_grid, 12 + (encode_qstring (some wsjtx_id)).length + 13 + (encode_qstring (some dx_call)).length + (encode_qstring (some dx_grid)).length + 8 + (encode_qstring (some mode)).length + (encode_qstring (some rst_sent)).length + (encode_qstring (some rst_rcvd)).length + (encode_qstring (some ([] : List Nat))).length + (encode_qstring (some ([] : List Nat))).length + (encode_qstring (some ([] : List Nat))).length + 13 + (encode_qstring (some my_call)).length + (encode_qstring (some my_call)).length + (encode_qstring (some my_grid)).length + (encode_qstring (some my_grid)).length + (encode_qstring (some dx_grid)).length) := by
    have hD : build_qso_logged_message wsjtx_id dx_call dx_grid freq_hz mode rst_sent rst_rcvd my_call my_grid now =
        (beBytes 4 MAGIC ++ beBytes 4 SCHEMA ++ beBytes 4 MSG_QSO_LOGGED ++
        encode_qstring (some wsjtx_id) ++
        encode_qdatetime now ++
        encode_qstring (some dx_call) ++
        encode_qstring (some dx_grid) ++
        beBytes 8 freq_hz ++
        encode_qstring (some mode) ++
        encode_qstring (some rst_sent) ++
        encode_qstring (some rst_rcvd) ++
        encode_qstring (some ([] : List Nat)) ++
        encode_qstring (some ([] : List Nat)) ++
        encode_qstring (some ([] : List Nat)) ++
        encode_qdatetime now ++
        encode_qstring (some my_call) ++
        encode_qstring (some my_call) ++
        encode_qstring (some my_grid) ++
        encode_qstring (some my_grid)) ++
          (encode_qstring (some dx_grid) ++ (encode_qstring (some ([] : List Nat)) ++ ([] : List Nat))) := by
      simp [build_qso_logged_message, List.append_assoc]
    have hP : (beBytes 4 MAGIC ++ beBytes 4 SCHEMA ++ beBytes 4 MSG_QSO_LOGGED ++
        encode_qstring (some wsjtx_id) ++
        encode_qdatetime now ++
        encode_qstring (some dx_call) ++
        encode_qstring (some dx_grid) ++
        beBytes 8 freq_hz ++
        encode_qstring (some mode) ++
        encode_qstring (some rst_sent) ++
        encode_qstring (some rst_rcvd) ++
        encode_qstring (some ([] : List Nat)) ++
        encode_qstring (some ([] : List Nat)) ++
        encode_qstring (some ([] : List Nat)) ++
        encode_qdatetime now ++
        encode_qstring (some my_call) ++
        encode_qstring (some my_call) ++
        encode_qstring (some my_grid) ++
        encode_qstring (some my_grid) : List Nat).length = 12 + (encode_qstring (some wsjtx_id)).length + 13 + (encode_qstring (some dx_call)).length + (encode_qstring (some dx_grid)).length + 8 + (encode_qstring (some mode)).length + (encode_qstring (some rst_sent)).length + (encode_qstring (some rst_rcvd)).length + (encode_qstring (some ([] : List Nat))).length + (encode_qstring (some ([] : List Nat))).length + (encode_qstring (some ([] : List Nat))).length + 13 + (encode_qstring (some my_call)).length + (encode_qstring (some my_call)).length + (encode_qstring (some my_grid)).length + (encode_qstring (some my_grid)).length := by
      simp [beBytes_length, encode_qdatetime_length]
      try omega
    rw [hD, ← hP]
    exact decode_qstring_at _ dx_grid _ hdxg
  have h18 : decode_qstring (build_qso_logged_message wsjtx_id dx_call dx_grid freq_hz mode rst_sent rst_rcvd my_call my_grid now) (12 + (encode_qstring (some wsjtx_id)).length + 13 + (encode_qstring (some dx_call)).length + (encode_qstring (some dx_grid)).length + 8 + (encode_qstring (some mode)).length + (encode_qstring (some rst_sent)).length + (encode_qstring (some rst_rcvd)).length + (encode_qstring (some ([] : List Nat))).length + (encode_qstring (some ([] : List Nat))).length + (encode_qstring (some ([] : List Nat))).length + 13 + (encode_qstring (some my_call)).length + (encode_qstring (some my_call)).length + (encode_qstring (some my_grid)).length + (encode_qstring (some my_grid)).length + (encode_qstring (some dx_grid)).length) =
      .ok (([] : List Nat), 12 + (encode_qstring (some wsjtx_id)).length + 13 + (encode_qstring (some dx_call)).length + (encode_qstring (some dx_grid)).length + 8 + (encode_qstring (some mode)).length + (encode_qstring (some rst_sent)).length + (encode_qstring (some rst_rcvd)).length + (encode_qstring (some ([] : List Nat))).length + (encode_qstring (some ([] : List Nat))).length + (encode_qstring (some ([] : List Nat))).length + 13 + (encode_qstring (some my_call)).length + (encode_qstring (some my_call)).length + (encode_qstring (some my_grid)).length + (encode_qstring (some my_grid)).length + (encode_qstring (some dx_grid)).length + (encode_qstring (some ([] : List Nat))).length) := by
    have hD : build_qso_logged_message wsjtx_id dx_call dx_grid freq_hz mode rst_sent rst_rcvd my_call my_grid now =
        (beBytes 4 MAGIC ++ beBytes 4 SCHEMA ++ beBytes 4 MSG_QSO_LOGGED ++
        encode_qstring (some wsjtx_id) ++
        encode_qdatetime now ++
        encode_qstring (some dx_call) ++
        encode_qstring (some dx_grid) ++
        beBytes 8 freq_hz ++
        encode_qstring (some mode) ++
        encode_qstring (some rst_sent) ++
        encode_qstring (some rst_rcvd) ++
        encode_qstring (some ([] : List Nat)) ++
        encode_qstring (some ([] : List Nat)) ++
        encode_qstring (some ([] : List Nat)) ++
        encode_qdatetime now ++
        encode_qstring (some my_call) ++
        encode_qstring (some my_call) ++
        encode_qstring (some my_grid) ++
        encode_qstring (some my_grid) ++
        encode_qstring (some dx_grid)) ++
          (encode_qstring (some ([] : List Nat)) ++ ([] : List Nat)) := by
      simp [build_qso_logged_message, List.append_assoc]
    have hP : (beBytes 4 MAGIC ++ beBytes 4 SCHEMA ++ beBytes 4 MSG_QSO_LOGGED ++
        encode_qstring (some wsjtx_id) ++
        encode_qdatetime now ++
        encode_qstring (some dx_call) ++
        encode_qstring (some dx_grid) ++
        beBytes 8 freq_hz ++
        encode_qstring (some mode) ++
        encode_qstring (some rst_sent) ++
        encode_qstring (some rst_rcvd) ++
        encode_qstring (some ([] : List Nat)) ++
        encode_qstring (some ([] : List Nat)) ++
        encode_qstring (some ([] : List Nat)) ++
        encode_qdatetime now ++
        encode_qstring (some my_call) ++
        encode_qstring (some my_call) ++
        encode_qstring (some my_grid) ++
        encode_qstring (some my_grid) ++
        encode_qstring (some dx_grid) : List Nat).length = 12 + (encode_qstring (some wsjtx_id)).length + 13 + (encode_qstring (some dx_call)).length + (encode_qstring (some dx_grid)).length + 8 + (encode_qstring (some mode)).length + (encode_qstring (some rst_sent)).length + (encode_qstring (some rst_rcvd)).length + (encode_qstring (some ([] : List Nat))).length + (encode_qstring (some ([] : List Nat))).length + (encode_qstring (some ([] : List Nat))).length + 13 + (encode_qstring (some my_call)).length + (encode_qstring (some my_call)).length + (encode_qstring (some my_grid)).length + (encode_qstring (some my_grid)).length + (encode_qstring (some dx_grid)).length := by
      simp [beBytes_length, encode_qdatetime_length]
      try omega
    rw [hD, ← hP]
    exact decode_qstring_at _ ([] : List Nat) _ (by decide)
  have hcore : parse_qso_logged_core (build_qso_logged_message wsjtx_id dx_call dx_grid freq_hz mode rst_sent rst_rcvd my_call my_grid now) =
      .ok { wsjtx_id := wsjtx_id, datetime_off := qdatetimeValue now,
            datetime_on := qdatetimeValue now, dx_call := dx_call,
            dx_grid := dx_grid, freq_hz := freq_hz,
            band := freq_to_band freq_hz, mode := mode,
            report_sent := rst_sent, report_rcvd := rst_rcvd,
            tx_power := [], comments := [], name := [],
            operator_call := my_call, my_call := my_call,
            my_grid := my_grid, exchange_sent := my_grid,
            exchange_rcvd := dx_grid, adif_prop_mode := [] } := by
    simp only [parse_qso_logged_core, h1, h2, h3, h4, h5, h6, h7, h8, h9, h10, h11, h12, h13, h14, h15, h16, h17, h18]
  simp only [parse_qso_logged, hcore, qso_logged_record]

/-- Parsing the message with the trailing optional propagation-mode
segment absent still succeeds, defaulting the field to empty, and
recovers the same record. -/
theorem parse_build_qso_logged_fields (wsjtx_id dx_call dx_grid mode rst_sent rst_rcvd my_call my_grid : List Nat)
    (freq_hz : Nat) (now : PyDateTime)
    (hid : wsjtx_id.length < 0xFFFFFFFF)
    (hdxc : dx_call.length < 0xFFFFFFFF)
    (hdxg : dx_grid.length < 0xFFFFFFFF)
    (hmode : mode.length < 0xFFFFFFFF)
    (hrsts : rst_sent.length < 0xFFFFFFFF)
    (hrstr : rst_rcvd.length < 0xFFFFFFFF)
    (hmyc : my_call.length < 0xFFFFFFFF)
    (hmyg : my_grid.length < 0xFFFFFFFF)
    (hfreq : freq_hz < 18446744073709551616)
    (hnow : WFPyDt now) :
    parse_qso_logged (build_qso_logged_fields wsjtx_id dx_call dx_grid freq_hz mode rst_sent rst_rcvd my_call my_grid now) =
      some (qso_logged_record wsjtx_id dx_call dx_grid freq_hz mode rst_sent rst_rcvd my_call my_grid now) := by
  have h1 : decode_qstring (build_qso_logged_fields wsjtx_id dx_call dx_grid freq_hz mode rst_sent rst_rcvd my_call my_grid now) (12) =
      .ok (wsjtx_id, 12 + (encode_qstring (some wsjtx_id)).length) := by
    have hD : build_qso_logged_fields wsjtx_id dx_call dx_grid freq_hz mode rst_sent rst_rcvd my_call my_grid now =
        (beBytes 4 MAGIC ++ beBytes 4 SCHEMA ++ beBytes 4 MSG_QSO_LOGGED) ++
          (encode_qstring (some wsjtx_id) ++ (encode_qdatetime now ++ (encode_qstring (some dx_call) ++ (encode_qstring (some dx_grid) ++ (beBytes 8 freq_hz ++ (encode_qstring (some mode) ++ (encode_qstring (some rst_sent) ++ (encode_qstring (some rst_rcvd) ++ (encode_qstring (some ([] : List Nat)) ++ (encode_qstring (some ([] : List Nat)) ++ (encode_qstring (some ([] : List Nat)) ++ (encode_qdatetime now ++ (encode_qstring (some my_call) ++ (encode_qstring (some my_call) ++ (encode_qstring (some my_grid) ++ (encode_qstring (some my_grid) ++ (encode_qstring (some dx_grid) ++ ([] : List Nat)))))))))))))))))) := by
      simp [build_qso_logged_fields, List.append_assoc]
    have hP : (beBytes 4 MAGIC ++ beBytes 4 SCHEMA ++ beBytes 4 MSG_QSO_LOGGED : List Nat).length = 12 := by
      simp [beBytes_length, encode_qdatetime_length]
      try omega
    rw [hD, ← hP]
    exact decode_qstring_at _ wsjtx_id _ hid
  have h2 : decode_qdatetime (build_qso_logged_fields wsjtx_id dx_call dx_grid freq_hz mode rst_sent rst_rcvd my_call my_grid now) (12 + (encode_qstring (some wsjtx_id)).length) =
      .ok (qdatetimeValue now, 12 + (encode_qstring (some wsjtx_id)).length + 13) := by
    have hD : build_qso_logged_fields wsjtx_id dx_call dx_grid freq_hz mode rst_sent rst_rcvd my_call my_grid now =
        (beBytes 4 MAGIC ++ beBytes 4 SCHEMA ++ beBytes 4 MSG_QSO_LOGGED ++
        encode_qstring (some wsjtx_id)) ++
          (encode_qdatetime now ++ (encode_qstring (some dx_call) ++ (encode_qstring (some dx_grid) ++ (beBytes 8 freq_hz ++ (encode_qstring (some mode) ++ (encode_qstring (some rst_sent) ++ (encode_qstring (some rst_rcvd) ++ (encode_qstring (some ([] : List Nat)) ++ (encode_qstring (some ([] : List Nat)) ++ (encode_qstring (some ([] : List Nat)) ++ (encode_qdatetime now ++ (encode_qstring (some my_call) ++ (encode_qstring (some my_call) ++ (encode_qstring (some my_grid) ++ (encode_qstring (some my_grid) ++ (encode_qstring (some dx_grid) ++ ([] : List Nat))))))))))))))))) := by
      simp [build_qso_logged_fields, List.append_assoc]
    have hP : (beBytes 4 MAGIC ++ beBytes 4 SCHEMA ++ beBytes 4 MSG_QSO_LOGGED ++
        encode_qstring (some wsjtx_id) : List Nat).length = 12 + (encode_qstring (some wsjtx_id)).length := by
      simp [beBytes_length, encode_qdatetime_length]
      try omega
    rw [hD, ← hP]
    exact decode_qdatetime_src_at _ now _ hnow
  have h3 : decode_qstring (build_qso_logged_fields wsjtx_id dx_call dx_grid freq_hz mode rst_sent rst_rcvd my_call my_grid now) (12 + (encode_qstring (some wsjtx_id)).length + 13) =
      .ok (dx_call, 12 + (encode_qstring (some wsjtx_id)).length + 13 + (encode_qstring (some dx_call)).length) := by
    have hD : build_qso_logged_fields wsjtx_id dx_call dx_grid freq_hz mode rst_sent rst_rcvd my_call my_grid now =
        (beBytes 4 MAGIC ++ beBytes 4 SCHEMA ++ beBytes 4 MSG_QSO_LOGGED ++
        encode_qstring (some wsjtx_id) ++
        encode_qdatetime now) ++
          (encode_qstring (some dx_call) ++ (encode_qstring (some dx_grid) ++ (beBytes 8 freq_hz ++ (encode_qstring (some mode) ++ (encode_qstring (some rst_sent) ++ (encode_qstring (some rst_rcvd) ++ (encode_qstring (some ([] : List Nat)) ++ (encode_qstring (some ([] : List Nat)) ++ (encode_qstring (some ([] : List Nat)) ++ (encode_qdatetime now ++ (encode_qstring (some my_call) ++ (encode_qstring (some my_call) ++ (encode_qstring (some my_grid) ++ (encode_qstring (some my_grid) ++ (encode_qstring (some dx_grid) ++ ([] : List Nat)))))))))))))))) := by
      simp [build_qso_logged_fields, List.append_assoc]
    have hP : (beBytes 4 MAGIC ++ beBytes 4 SCHEMA ++ beBytes 4 MSG_QSO_LOGGED ++
        encode_qstring (some wsjtx_id) ++
        encode_qdatetime now : List Nat).length = 12 + (encode_qstring (some wsjtx_id)).length + 13 := by
      simp [beBytes_length, encode_qdatetime_length]
      try omega
    rw [hD, ← hP]
    exact decode_qstring_at _ dx_call _ hdxc
  have h4 : decode_qstring (build_qso_logged_fields wsjtx_id dx_call dx_grid freq_hz mode rst_sent rst_rcvd my_call my_grid now) (12 + (encode_qstring (some wsjtx_id)).length + 13 + (encode_qstring (some dx_call)).length) =
      .ok (dx_grid, 12 + (encode_qstring (some wsjtx_id)).length + 13 + (encode_qstring (some dx_call)).length + (encode_qstring (some dx_grid)).length) := by
    have hD : build_qso_logged_fields wsjtx_id dx_call dx_grid freq_hz mode rst_sent rst_rcvd my_call my_grid now =
        (beBytes 4 MAGIC ++ beBytes 4 SCHEMA ++ beBytes 4 MSG_QSO_LOGGED ++
        encode_qstring (some wsjtx_id) ++
        encode_qdatetime now ++
        encode_qstring (some dx_call)) ++
          (encode_qstring (some dx_grid) ++ (beBytes 8 freq_hz ++ (encode_qstring (some mode) ++ (encode_qstring (some rst_sent) ++ (encode_qstring (some rst_rcvd) ++ (encode_qstring (some ([] : List Nat)) ++ (encode_qstring (some ([] : List Nat)) ++ (encode_qstring (some ([] : List Nat)) ++ (encode_qdatetime now ++ (encode_qstring (some my_call) ++ (encode_qstring (some my_call) ++ (encode_qstring (some my_grid) ++ (encode_qstring (some my_grid) ++ (encode_qstring (some dx_grid) ++ ([] : List Nat))))))))))))))) := by
      simp [build_qso_logged_fields, List.append_assoc]
    have hP : (beBytes 4 MAGIC ++ beBytes 4 SCHEMA ++ beBytes 4 MSG_QSO_LOGGED ++
        encode_qstring (some wsjtx_id) ++
        encode_qdatetime now ++
        encode_qstring (some dx_call) : List Nat).length = 12 + (encode_qstring (some wsjtx_id)).length + 13 + (encode_qstring (some dx_call)).length := by
      simp [beBytes_length, encode_qdatetime_length]
      try omega
    rw [hD, ← hP]
    exact decode_qstring_at _ dx_grid _ hdxg
  have h5 : decode_quint64 (build_qso_logged_fields wsjtx_id dx_call dx_grid freq_hz mode rst_sent rst_rcvd my_call my_grid now) (12 + (encode_qstring (some wsjtx_id)).length + 13 + (encode_qstring (some dx_call)).length + (encode_qstring (some dx_grid)).length) =
      .ok (freq_hz, 12 + (encode_qstring (some wsjtx_id)).length + 13 + (encode_qstring (some dx_call)).length + (encode_qstring (some dx_grid)).length + 8) := by
    have hD : build_qso_logged_fields wsjtx_id dx_call dx_grid freq_hz mode rst_sent rst_rcvd my_call my_grid now =
        (beBytes 4 MAGIC ++ beBytes 4 SCHEMA ++ beBytes 4 MSG_QSO_LOGGED ++
        encode_qstring (some wsjtx_id) ++
        encode_qdatetime now ++
        encode_qstring (some dx_call) ++
        encode_qstring (some dx_grid)) ++
          (beBytes 8 freq_hz ++ (encode_qstring (some mode) ++ (encode_qstring (some rst_sent) ++ (encode_qstring (some rst_rcvd) ++ (encode_qstring (some ([] : List Nat)) ++ (encode_qstring (some ([] : List Nat)) ++ (encode_qstring (some ([] : List Nat)) ++ (encode_qdatetime now ++ (encode_qstring (some my_call) ++ (encode_qstring (some my_call) ++ (encode_qstring (some my_grid) ++ (encode_qstring (some my_grid) ++ (encode_qstring (some dx_grid) ++ ([] : List Nat)))))))))))))) := by
      simp [build_qso_logged_fields, List.append_assoc]
    have hP : (beBytes 4 MAGIC ++ beBytes 4 SCHEMA ++ beBytes 4 MSG_QSO_LOGGED ++
        encode_qstring (some wsjtx_id) ++
        encode_qdatetime now ++
        encode_qstring (some dx_call) ++
        encode_qstring (some dx_grid) : List Nat).length = 12 + (encode_qstring (some wsjtx_id)).length + 13 + (encode_qstring (some dx_call)).length + (encode_qstring (some dx_grid)).length := by
      simp [beBytes_length, encode_qdatetime_length]
      try omega
    rw [hD, ← hP]
    exact decode_quint64_at _ freq_hz _ hfreq
  have h6 : decode_qstring (build_qso_logged_fields wsjtx_id dx_call dx_grid freq_hz mode rst_sent rst_rcvd my_call my_grid now) (12 + (encode_qstring (some wsjtx_id)).length + 13 + (encode_qstring (some dx_call)).length + (encode_qstring (some dx_grid)).length + 8) =
      .ok (mode, 12 + (encode_qstring (some wsjtx_id)).length + 13 + (encode_qstring (some dx_call)).length + (encode_qstring (some dx_grid)).length + 8 + (encode_qstring (some mode)).length) := by
    have hD : build_qso_logged_fields wsjtx_id dx_call dx_grid freq_hz mode rst_sent rst_rcvd my_call my_grid now =
        (beBytes 4 MAGIC ++ beBytes 4 SCHEMA ++ beBytes 4 MSG_QSO_LOGGED ++
        encode_qstring (some wsjtx_id) ++
        encode_qdatetime now ++
        encode_qstring (some dx_call) ++
        encode_qstring (some dx_grid) ++
        beBytes 8 freq_hz) ++
          (encode_qstring (some mode) ++ (encode_qstring (some rst_sent) ++ (encode_qstring (some rst_rcvd) ++ (encode_qstring (some ([] : List Nat)) ++ (encode_qstring (some ([] : List Nat)) ++ (encode_qstring (some ([] : List Nat)) ++ (encode_qdatetime now ++ (encode_qstring (some my_call) ++ (encode_qstring (some my_call) ++ (encode_qstring (some my_grid) ++ (encode_qstring (some my_grid) ++ (encode_qstring (some dx_grid) ++ ([] : List Nat))))))))))))) := by
      simp [build_qso_logged_fields, List.append_assoc]
    have hP : (beBytes 4 MAGIC ++ beBytes 4 SCHEMA ++ beBytes 4 MSG_QSO_LOGGED ++
        encode_qstring (some wsjtx_id) ++
        encode_qdatetime now ++
        encode_qstring (some dx_call) ++
        encode_qstring (some dx_grid) ++
        beBytes 8 freq_hz : List Nat).length = 12 + (encode_qstring (some wsjtx_id)).length + 13 + (encode_qstring (some dx_call)).length + (encode_qstring (some dx_grid)).length + 8 := by
      simp [beBytes_length, encode_qdatetime_length]
      try omega
    rw [hD, ← hP]
    exact decode_qstring_at _ mode _ hmode
  have h7 : decode_qstring (build_qso_logged_fields wsjtx_id dx_call dx_grid freq_hz mode rst_sent rst_rcvd my_call my_grid now) (12 + (encode_qstring (some wsjtx_id)).length + 13 + (encode_qstring (some dx_call)).length + (encode_qstring (some dx_grid)).length + 8 + (encode_qstring (some mode)).length) =
      .ok (rst_sent, 12 + (encode_qstring (some wsjtx_id)).length + 13 + (encode_qstring (some dx_call)).length + (encode_qstring (some dx_grid)).length + 8 + (encode_qstring (some mode)).length + (encode_qstring (some rst_sent)).length) := by
    have hD : build_qso_logged_fields wsjtx_id dx_call dx_grid freq_hz mode rst_sent rst_rcvd my_call my_grid now =
        (beBytes 4 MAGIC ++ beBytes 4 SCHEMA ++ beBytes 4 MSG_QSO_LOGGED ++
        encode_qstring (some wsjtx_id) ++
        encode_qdatetime now ++
        encode_qstring (some dx_call) ++
        encode_qstring (some dx_grid) ++
        beBytes 8 freq_hz ++
        encode_qstring (some mode)) ++
          (encode_qstring (some rst_sent) ++ (encode_qstring (some rst_rcvd) ++ (encode_qstring (some ([] : List Nat)) ++ (encode_qstring (some ([] : List Nat)) ++ (encode_qstring (some ([] : List Nat)) ++ (encode_qdatetime now ++ (encode_qstring (some my_call) ++ (encode_qstring (some my_call) ++ (encode_qstring (some my_grid) ++ (encode_qstring (some my_grid) ++ (encode_qstring (some dx_grid) ++ ([] : List Nat)))))))))))) := by
      simp [build_qso_logged_fields, List.append_assoc]
    have hP : (beBytes 4 MAGIC ++ beBytes 4 SCHEMA ++ beBytes 4 MSG_QSO_LOGGED ++
        encode_qstring (some wsjtx_id) ++
        encode_qdatetime now ++
        encode_qstring (some dx_call) ++
        encode_qstring (some dx_grid) ++
        beBytes 8 freq_hz ++
        encode_qstring (some mode) : List Nat).length = 12 + (encode_qstring (some wsjtx_id)).length + 13 + (encode_qstring (some dx_call)).length + (encode_qstring (some dx_grid)).length + 8 + (encode_qstring (some mode)).length := by
      simp [beBytes_length, encode_qdatetime_length]
      try omega
    rw [hD, ← hP]
    exact decode_qstring_at _ rst_sent _ hrsts
  have h8 : decode_qstring (build_qso_logged_fields wsjtx_id dx_call dx_grid freq_hz mode rst_sent rst_rcvd my_call my_grid now) (12 + (encode_qstring (some wsjtx_id)).length + 13 + (encode_qstring (some dx_call)).length + (encode_qstring (some dx_grid)).length + 8 + (encode_qstring (some mode)).length + (encode_qstring (some rst_sent)).length) =
      .ok (rst_rcvd, 12 + (encode_qstring (some wsjtx_id)).length + 13 + (encode_qstring (some dx_call)).length + (encode_qstring (some dx_grid)).length + 8 + (encode_qstring (some mode)).length + (encode_qstring (some rst_sent)).length + (encode_qstring (some rst_rcvd)).length) := by
    have hD : build_qso_logged_fields wsjtx_id dx_call dx_grid freq_hz mode rst_sent rst_rcvd my_call my_grid now =
        (beBytes 4 MAGIC ++ beBytes 4 SCHEMA ++ beBytes 4 MSG_QSO_LOGGED ++
        encode_qstring (some wsjtx_id) ++
        encode_qdatetime now ++
        encode_qstring (some dx_call) ++
        encode_qstring (some dx_grid) ++
        beBytes 8 freq_hz ++
        encode_qstring (some mode) ++
        encode_qstring (some rst_sent)) ++
          (encode_qstring (some rst_rcvd) ++ (encode_qstring (some ([] : List Nat)) ++ (encode_qstring (some ([] : List Nat)) ++ (encode_qstring (some ([] : List Nat)) ++ (encode_qdatetime now ++ (encode_qstring (some my_call) ++ (encode_qstring (some my_call) ++ (encode_qstring (some my_grid) ++ (encode_qstring (some my_grid) ++ (encode_qstring (some dx_grid) ++ ([] : List Nat))))))))))) := by
      simp [build_qso_logged_fields, List.append_assoc]
    have hP : (beBytes 4 MAGIC ++ beBytes 4 SCHEMA ++ beBytes 4 MSG_QSO_LOGGED ++
        encode_qstring (some wsjtx_id) ++
        encode_qdatetime now ++
        encode_qstring (some dx_call) ++
        encode_qstring (some dx_grid) ++
        beBytes 8 freq_hz ++
        encode_qstring (some mode) ++
        encode_qstring (some rst_sent) : List Nat).length = 12 + (encode_qstring (some wsjtx_id)).length + 13 + (encode_qstring (some dx_call)).length + (encode_qstring (some dx_grid)).length + 8 + (encode_qstring (some mode)).length + (encode_qstring (some rst_sent)).length := by
      simp [beBytes_length, encode_qdatetime_length]
      try omega
    rw [hD, ← hP]
    exact decode_qstring_at _ rst_rcvd _ hrstr
  have h9 : decode_qstring (build_qso_logged_fields wsjtx_id dx_call dx_grid freq_hz mode rst_sent rst_rcvd my_call my_grid now) (12 + (encode_qstring (some wsjtx_id)).length + 13 + (encode_qstring (some dx_call)).length + (encode_qstring (some dx_grid)).length + 8 + (encode_qstring (some mode)).length + (encode_qstring (some rst_sent)).length + (encode_qstring (some rst_rcvd)).length) =
      .ok (([] : List Nat), 12 + (encode_qstring (some wsjtx_id)).length + 13 + (encode_qstring (some dx_call)).length + (encode_qstring (some dx_grid)).length + 8 + (encode_qstring (some mode)).length + (encode_qstring (some rst_sent)).length + (encode_qstring (some rst_rcvd)).length + (encode_qstring (some ([] : List Nat))).length) := by
    have hD : build_qso_logged_fields wsjtx_id dx_call dx_grid freq_hz mode rst_sent rst_rcvd my_call my_grid now =
        (beBytes 4 MAGIC ++ beBytes 4 SCHEMA ++ beBytes 4 MSG_QSO_LOGGED ++
        encode_qstring (some wsjtx_id) ++
        encode_qdatetime now ++
        encode_qstring (some dx_call) ++
        encode_qstring (some dx_grid) ++
        beBytes 8 freq_hz ++
        encode_qstring (some mode) ++
        encode_qstring (some rst_sent) ++
        encode_qstring (some rst_rcvd)) ++
          (encode_qstring (some ([] : List Nat)) ++ (encode_qstring (some ([] : List Nat)) ++ (encode_qstring (some ([] : List Nat)) ++ (encode_qdatetime now ++ (encode_qstring (some my_call) ++ (encode_qstring (some my_call) ++ (encode_qstring (some my_grid) ++ (encode_qstring (some my_grid) ++ (encode_qstring (some dx_grid) ++ ([] : List Nat)))))))))) := by
      simp [build_qso_logged_fields, List.append_assoc]
    have hP : (beBytes 4 MAGIC ++ beBytes 4 SCHEMA ++ beBytes 4 MSG_QSO_LOGGED ++
        encode_qstring (some wsjtx_id) ++
        encode_qdatetime now ++
        encode_qstring (some dx_call) ++
        encode_qstring (some dx_grid) ++
        beBytes 8 freq_hz ++
        encode_qstring (some mode) ++
        encode_qstring (some rst_sent) ++
        encode_qstring (some rst_rcvd) : List Nat).length = 12 + (encode_qstring (some wsjtx_id)).length + 13 + (encode_qstring (some dx_call)).length + (encode_qstring (some dx_grid)).length + 8 + (encode_qstring (some mode)).length + (encode_qstring (some rst_sent)).length + (encode_qstring (some rst_rcvd)).length := by
      simp [beBytes_length, encode_qdatetime_length]
      try omega
    rw [hD, ← hP]
    exact decode_qstring_at _ ([] : List Nat) _ (by decide)
  have h10 : decode_qstring (build_qso_logged_fields wsjtx_id dx_call dx_grid freq_hz mode rst_sent rst_rcvd my_call my_grid now) (12 + (encode_qstring (some wsjtx_id)).length + 13 + (encode_qstring (some dx_call)).length + (encode_qstring (some dx_grid)).length + 8 + (encode_qstring (some mode)).length + (encode_qstring (some rst_sent)).length + (encode_qstring (some rst_rcvd)).length + (encode_qstring (some ([] : List Nat))).length) =
      .ok (([] : List Nat), 12 + (encode_qstring (some wsjtx_id)).length + 13 + (encode_qstring (some dx_call)).length + (encode_qstring (some dx_grid)).length + 8 + (encode_qstring (some mode)).length + (encode_qstring (some rst_sent)).length + (encode_qstring (some rst_rcvd)).length + (encode_qstring (some ([] : List Nat))).length + (encode_qstring (some ([] : List Nat))).length) := by
    have hD : build_qso_logged_fields wsjtx_id dx_call dx_grid freq_hz mode rst_sent rst_rcvd my_call my_grid now =
        (beBytes 4 MAGIC ++ beBytes 4 SCHEMA ++ beBytes 4 MSG_QSO_LOGGED ++
        encode_qstring (some wsjtx_id) ++
        encode_qdatetime now ++
        encode_qstring (some dx_call) ++
        encode_qstring (some dx_grid) ++
        beBytes 8 freq_hz ++
        encode_qstring (some mode) ++
        encode_qstring (some rst_sent) ++
        encode_qstring (some rst_rcvd) ++
        encode_qstring (some ([] : List Nat))) ++
          (encode_qstring (some ([] : List Nat)) ++ (encode_qstring (some ([] : List Nat)) ++ (encode_qdatetime now ++ (encode_qstring (some my_call) ++ (encode_qstring (some my_call) ++ (encode_qstring (some my_grid) ++ (encode_qstring (some my_grid) ++ (encode_qstring (some dx_grid) ++ ([] : List Nat))))))))) := by
      simp [build_qso_logged_fields, List.append_assoc]
    have hP : (beBytes 4 MAGIC ++ beBytes 4 SCHEMA ++ beBytes 4 MSG_QSO_LOGGED ++
        encode_qstring (some wsjtx_id) ++
        encode_qdatetime now ++
        encode_qstring (some dx_call) ++
        encode_qstring (some dx_grid) ++
        beBytes 8 freq_hz ++
        encode_qstring (some mode) ++
        encode_qstring (some rst_sent) ++
        encode_qstring (some rst_rcvd) ++
        encode_qstring (some ([] : List Nat)) : List Nat).length = 12 + (encode_qstring (some wsjtx_id)).length + 13 + (encode_qstring (some dx_call)).length + (encode_qstring (some dx_grid)).length + 8 + (encode_qstring (some mode)).length + (encode_qstring (some rst_sent)).length + (encode_qstring (some rst_rcvd)).length + (encode_qstring (some ([] : List Nat))).length := by
      simp [beBytes_length, encode_qdatetime_length]
      try omega
    rw [hD, ← hP]
    exact decode_qstring_at _ ([] : List Nat) _ (by decide)
  have h11 : decode_qstring (build_qso_logged_fields wsjtx_id dx_call dx_grid freq_hz mode rst_sent rst_rcvd my_call my_grid now) (12 + (encode_qstring (some wsjtx_id)).length + 13 + (encode_qstring (some dx_call)).length + (encode_qstring (some dx_grid)).length + 8 + (encode_qstring (some mode)).length + (encode_qstring (some rst_sent)).length + (encode_qstring (some rst_rcvd)).length + (encode_qstring (some ([] : List Nat))).length + (encode_qstring (some ([] : List Nat))).length) =
      .ok (([] : List Nat), 12 + (encode_qstring (some wsjtx_id)).length + 13 + (encode_qstring (some dx_call)).length + (encode_qstring (some dx_grid)).length + 8 + (encode_qstring (some mode)).length + (encode_qstring (some rst_sent)).length + (encode_qstring (some rst_rcvd)).length + (encode_qstring (some ([] : List Nat))).length + (encode_qstring (some ([] : List Nat))).length + (encode_qstring (some ([] : List Nat))).length) := by
    have hD : build_qso_logged_fields wsjtx_id dx_call dx_grid freq_hz mode rst_sent rst_rcvd my_call my_grid now =
        (beBytes 4 MAGIC ++ beBytes 4 SCHEMA ++ beBytes 4 MSG_QSO_LOGGED ++
        encode_qstring (some wsjtx_id) ++
        encode_qdatetime now ++
        encode_qstring (some dx_call) ++
        encode_qstring (some dx_grid) ++
        beBytes 8 freq_hz ++
        encode_qstring (some mode) ++
        encode_qstring (some rst_sent) ++
        encode_qstring (some rst_rcvd) ++
        encode_qstring (some ([] : List Nat)) ++
        encode_qstring (some ([] : List Nat))) ++
          (encode_qstring (some ([] : List Nat)) ++ (encode_qdatetime now ++ (encode_qstring (some my_call) ++ (encode_qstring (some my_call) ++ (encode_qstring (some my_grid) ++ (encode_qstring (some my_grid) ++ (encode_qstring (some dx_grid) ++ ([] : List Nat)))))))) := by
      simp [build_qso_logged_fields, List.append_assoc]
    have hP : (beBytes 4 MAGIC ++ beBytes 4 SCHEMA ++ beBytes 4 MSG_QSO_LOGGED ++
        encode_qstring (some wsjtx_id) ++
        encode_qdatetime now ++
        encode_qstring (some dx_call) ++
        encode_qstring (some dx_grid) ++
        beBytes 8 freq_hz ++
        encode_qstring (some mode) ++
        encode_qstring (some rst_sent) ++
        encode_qstring (some rst_rcvd) ++
        encode_qstring (some ([] : List Nat)) ++
        encode_qstring (some ([] : List Nat)) : List Nat).length = 12 + (encode_qstring (some wsjtx_id)).length + 13 + (encode_qstring (some dx_call)).length + (encode_qstring (some dx_grid)).length + 8 + (encode_qstring (some mode)).length + (encode_qstring (some rst_sent)).length + (encode_qstring (some rst_rcvd)).length + (encode_qstring (some ([] : List Nat))).length + (encode_qstring (some ([] : List Nat))).length := by
      simp [beBytes_length, encode_qdatetime_length]
      try omega
    rw [hD, ← hP]
    exact decode_qstring_at _ ([] : List Nat) _ (by decide)
  have h12 : decode_qdatetime (build_qso_logged_fields wsjtx_id dx_call dx_grid freq_hz mode rst_sent rst_rcvd my_call my_grid now) (12 + (encode_qstring (some wsjtx_id)).length + 13 + (encode_qstring (some dx_call)).length + (encode_qstring (some dx_grid)).length + 8 + (encode_qstring (some mode)).length + (encode_qstring (some rst_sent)).length + (encode_qstring (some rst_rcvd)).length + (encode_qstring (some ([] : List Nat))).length + (encode_qstring (some ([] : List Nat))).length + (encode_qstring (some ([] : List Nat))).length) =
      .ok (qdatetimeValue now, 12 + (encode_qstring (some wsjtx_id)).length + 13 + (encode_qstring (some dx_call)).length + (encode_qstring (some dx_grid)).length + 8 + (encode_qstring (some mode)).length + (encode_qstring (some rst_sent)).length + (encode_qstring (some rst_rcvd)).length + (encode_qstring (some ([] : List Nat))).length + (encode_qstring (some ([] : List Nat))).length + (encode_qstring (some ([] : List Nat))).length + 13) := by
    have hD : build_qso_logged_fields wsjtx_id dx_call dx_grid freq_hz mode rst_sent rst_rcvd my_call my_grid now =
        (beBytes 4 MAGIC ++ beBytes 4 SCHEMA ++ beBytes 4 MSG_QSO_LOGGED ++
        encode_qstring (some wsjtx_id) ++
        encode_qdatetime now ++
        encode_qstring (some dx_call) ++
        encode_qstring (some dx_grid) ++
        beBytes 8 freq_hz ++
        encode_qstring (some mode) ++
        encode_qstring (some rst_sent) ++
        encode_qstring (some rst_rcvd) ++
        encode_qstring (some ([] : List Nat)) ++
        encode_qstring (some ([] : List Nat)) ++
        encode_qstring (some ([] : List Nat))) ++
          (encode_qdatetime now ++ (encode_qstring (some my_call) ++ (encode_qstring (some my_call) ++ (encode_qstring (some my_grid) ++ (encode_qstring (some my_grid) ++ (encode_qstring (some dx_grid) ++ ([] : List Nat))))))) := by
      simp [build_qso_logged_fields, List.append_assoc]
    have hP : (beBytes 4 MAGIC ++ beBytes 4 SCHEMA ++ beBytes 4 MSG_QSO_LOGGED ++
        encode_qstring (some wsjtx_id) ++
        encode_qdatetime now ++
        encode_qstring (some dx_call) ++
        encode_qstring (some dx_grid) ++
        beBytes 8 freq_hz ++
        encode_qstring (some mode) ++
        encode_qstring (some rst_sent) ++
        encode_qstring (some rst_rcvd) ++
        encode_qstring (some ([] : List Nat)) ++
        encode_qstring (some ([] : List Nat)) ++
        encode_qstring (some ([] : List Nat)) : List Nat).length = 12 + (encode_qstring (some wsjtx_id)).length + 13 + (encode_qstring (some dx_call)).length + (encode_qstring (some dx_grid)).length + 8 + (encode_qstring (some mode)).length + (encode_qstring (some rst_sent)).length + (encode_qstring (some rst_rcvd)).length + (encode_qstring (some ([] : List Nat))).length + (encode_qstring (some ([] : List Nat))).length + (encode_qstring (some ([] : List Nat))).length := by
      simp [beBytes_length, encode_qdatetime_length]
      try omega
    rw [hD, ← hP]
    exact decode_qdatetime_src_at _ now _ hnow
  have h13 : decode_qstring (build_qso_logged_fields wsjtx_id dx_call dx_grid freq_hz mode rst_sent rst_rcvd my_call my_grid now) (12 + (encode_qstring (some wsjtx_id)).length + 13 + (encode_qstring (some dx_call)).length + (encode_qstring (some dx_grid)).length + 8 + (encode_qstring (some mode)).length + (encode_qstring (some rst_sent)).length + (encode_qstring (some rst_rcvd)).length + (encode_qstring (some ([] : List Nat))).length + (encode_qstring (some ([] : List Nat))).length + (encode_qstring (some ([] : List Nat))).length + 13) =
      .ok (my_call, 12 + (encode_qstring (some wsjtx_id)).length + 13 + (encode_qstring (some dx_call)).length + (encode_qstring (some dx_grid)).length + 8 + (encode_qstring (some mode)).length + (encode_qstring (some rst_sent)).length + (encode_qstring (some rst_rcvd)).length + (encode_qstring (some ([] : List Nat))).length + (encode_qstring (some ([] : List Nat))).length + (encode_qstring (some ([] : List Nat))).length + 13 + (encode_qstring (some my_call)).length) := by
    have hD : build_qso_logged_fields wsjtx_id dx_call dx_grid freq_hz mode rst_sent rst_rcvd my_call my_grid now =
        (beBytes 4 MAGIC ++ beBytes 4 SCHEMA ++ beBytes 4 MSG_QSO_LOGGED ++
        encode_qstring (some wsjtx_id) ++
        encode_qdatetime now ++
        encode_qstring (some dx_call) ++
        encode_qstring (some dx_grid) ++
        beBytes 8 freq_hz ++
        encode_qstring (some mode) ++
        encode_qstring (some rst_sent) ++
        encode_qstring (some rst_rcvd) ++
        encode_qstring (some ([] : List Nat)) ++
        encode_qstring (some ([] : List Nat)) ++
        encode_qstring (some ([] : List Nat)) ++
        encode_qdatetime now) ++
          (encode_qstring (some my_call) ++ (encode_qstring (some my_call) ++ (encode_qstring (some my_grid) ++ (encode_qstring (some my_grid) ++ (encode_qstring (some dx_grid) ++ ([] : List Nat)))))) := by
      simp [build_qso_logged_fields, List.append_assoc]
    have hP : (beBytes 4 MAGIC ++ beBytes 4 SCHEMA ++ beBytes 4 MSG_QSO_LOGGED ++
        encode_qstring (some wsjtx_id) ++
        encode_qdatetime now ++
        encode_qstring (some dx_call) ++
        encode_qstring (some dx_grid) ++
        beBytes 8 freq_hz ++
        encode_qstring (some mode) ++
        encode_qstring (some rst_sent) ++
        encode_qstring (some rst_rcvd) ++
        encode_qstring (some ([] : List Nat)) ++
        encode_qstring (some ([] : List Nat)) ++
        encode_qstring (some ([] : List Nat)) ++
        encode_qdatetime now : List Nat).length = 12 + (encode_qstring (some wsjtx_id)).length + 13 + (encode_qstring (some dx_call)).length + (encode_qstring (some dx_grid)).length + 8 + (encode_qstring (some mode)).length + (encode_qstring (some rst_sent)).length + (encode_qstring (some rst_rcvd)).length + (encode_qstring (some ([] : List Nat))).length + (encode_qstring (some ([] : List Nat))).length + (encode_qstring (some ([] : List Nat))).length + 13 := by
      simp [beBytes_length, encode_qdatetime_length]
      try omega
    rw [hD, ← hP]
    exact decode_qstring_at _ my_call _ hmyc
  have h14 : decode_qstring (build_qso_logged_fields wsjtx_id dx_call dx_grid freq_hz mode rst_sent rst_rcvd my_call my_grid now) (12 + (encode_qstring (some wsjtx_id)).length + 13 + (encode_qstring (some dx_call)).length + (encode_qstring (some dx_grid)).length + 8 + (encode_qstring (some mode)).length + (encode_qstring (some rst_sent)).length + (encode_qstring (some rst_rcvd)).length + (encode_qstring (some ([] : List Nat))).length + (encode_qstring (some ([] : List Nat))).length + (encode_qstring (some ([] : List Nat))).length + 13 + (encode_qstring (some my_call)).length) =
      .ok (my_call, 12 + (encode_qstring (some wsjtx_id)).length + 13 + (encode_qstring (some dx_call)).length + (encode_qstring (some dx_grid)).length + 8 + (encode_qstring (some mode)).length + (encode_qstring (some rst_sent)).length + (encode_qstring (some rst_rcvd)).length + (encode_qstring (some ([] : List Nat))).length + (encode_qstring (some ([] : List Nat))).length + (encode_qstring (some ([] : List Nat))).length + 13 + (encode_qstring (some my_call)).length + (encode_qstring (some my_call)).length) := by
    have hD : build_qso_logged_fields wsjtx_id dx_call dx_grid freq_hz mode rst_sent rst_rcvd my_call my_grid now =
        (beBytes 4 MAGIC ++ beBytes 4 SCHEMA ++ beBytes 4 MSG_QSO_LOGGED ++
        encode_qstring (some wsjtx_id) ++
        encode_qdatetime now ++
        encode_qstring (some dx_call) ++
        encode_qstring (some dx_grid) ++
        beBytes 8 freq_hz ++
        encode_qstring (some mode) ++
        encode_qstring (some rst_sent) ++
        encode_qstring (some rst_rcvd) ++
        encode_qstring (some ([] : List Nat)) ++
        encode_qstring (some ([] : List Nat)) ++
        encode_qstring (some ([] : List Nat)) ++
        encode_qdatetime now ++
        encode_qstring (some my_call)) ++
          (encode_qstring (some my_call) ++ (encode_qstring (some my_grid) ++ (encode_qstring (some my_grid) ++ (encode_qstring (some dx_grid) ++ ([] : List Nat))))) := by
      simp [build_qso_logged_fields, List.append_assoc]
    have hP : (beBytes 4 MAGIC ++ beBytes 4 SCHEMA ++ beBytes 4 MSG_QSO_LOGGED ++
        encode_qstring (some wsjtx_id) ++
        encode_qdatetime now ++
        encode_qstring (some dx_call) ++
        encode_qstring (some dx_grid) ++
        beBytes 8 freq_hz ++
        encode_qstring (some mode) ++
        encode_qstring (some rst_sent) ++
        encode_qstring (some rst_rcvd) ++
        encode_qstring (some ([] : List Nat)) ++
        encode_qstring (some ([] : List Nat)) ++
        encode_qstring (some ([] : List Nat)) ++
        encode_qdatetime now ++
        encode_qstring (some my_call) : List Nat).length = 12 + (encode_qstring (some wsjtx_id)).length + 13 + (encode_qstring (some dx_call)).length + (encode_qstring (some dx_grid)).length + 8 + (encode_qstring (some mode)).length + (encode_qstring (some rst_sent)).length + (encode_qstring (some rst_rcvd)).length + (encode_qstring (some ([] : List Nat))).length + (encode_qstring (some ([] : List Nat))).length + (encode_qstring (some ([] : List Nat))).length + 13 + (encode_qstring (some my_call)).length := by
      simp [beBytes_length, encode_qdatetime_length]
      try omega
    rw [hD, ← hP]
    exact decode_qstring_at _ my_call _ hmyc
  have h15 : decode_qstring (build_qso_logged_fields wsjtx_id dx_call dx_grid freq_hz mode rst_sent rst_rcvd my_call my_grid now) (12 + (encode_qstring (some wsjtx_id)).length + 13 + (encode_qstring (some dx_call)).length + (encode_qstring (some dx_grid)).length + 8 + (encode_qstring (some mode)).length + (encode_qstring (some rst_sent)).length + (encode_qstring (some rst_rcvd)).length + (encode_qstring (some ([] : List Nat))).length + (encode_qstring (some ([] : List Nat))).length + (encode_qstring (some ([] : List Nat))).length + 13 + (encode_qstring (some my_call)).length + (encode_qstring (some my_call)).length) =
      .ok (my_grid, 12 + (encode_qstring (some wsjtx_id)).length + 13 + (encode_qstring (some dx_call)).length + (encode_qstring (some dx_grid)).length + 8 + (encode_qstring (some mode)).length + (encode_qstring (some rst_sent)).length + (encode_qstring (some rst_rcvd)).length + (encode_qstring (some ([] : List Nat))).length + (encode_qstring (some ([] : List Nat))).length + (encode_qstring (some ([] : List Nat))).length + 13 + (encode_qstring (some my_call)).length + (encode_qstring (some my_call)).length + (encode_qstring (some my_grid)).length) := by
    have hD : build_qso_logged_fields wsjtx_id dx_call dx_grid freq_hz mode rst_sent rst_rcvd my_call my_grid now =
        (beBytes 4 MAGIC ++ beBytes 4 SCHEMA ++ beBytes 4 MSG_QSO_LOGGED ++
        encode_qstring (some wsjtx_id) ++
        encode_qdatetime now ++
        encode_qstring (some dx_call) ++
        encode_qstring (some dx_grid) ++
        beBytes 8 freq_hz ++
        encode_qstring (some mode) ++
        encode_qstring (some rst_sent) ++
        encode_qstring (some rst_rcvd) ++
        encode_qstring (some ([] : List Nat)) ++
        encode_qstring (some ([] : List Nat)) ++
        encode_qstring (some ([] : List Nat)) ++
        encode_qdatetime now ++
        encode_qstring (some my_call) ++
        encode_qstring (some my_call)) ++
          (encode_qstring (some my_grid) ++ (encode_qstring (some my_grid) ++ (encode_qstring (some dx_grid) ++ ([] : List Nat)))) := by
      simp [build_qso_logged_fields, List.append_assoc]
    have hP : (beBytes 4 MAGIC ++ beBytes 4 SCHEMA ++ beBytes 4 MSG_QSO_LOGGED ++
        encode_qstring (some wsjtx_id) ++
        encode_qdatetime now ++
        encode_qstring (some dx_call) ++
        encode_qstring (some dx_grid) ++
        beBytes 8 freq_hz ++
        encode_qstring (some mode) ++
        encode_qstring (some rst_sent) ++
        encode_qstring (some rst_rcvd) ++
        encode_qstring (some ([] : List Nat)) ++
        encode_qstring (some ([] : List Nat)) ++
        encode_qstring (some ([] : List Nat)) ++
        encode_qdatetime now ++
        encode_qstring (some my_call) ++
        encode_qstring (some my_call) : List Nat).length = 12 + (encode_qstring (some wsjtx_id)).length + 13 + (encode_qstring (some dx_call)).length + (encode_qstring (some dx_grid)).length + 8 + (encode_qstring (some mode)).length + (encode_qstring (some rst_sent)).length + (encode_qstring (some rst_rcvd)).length + (encode_qstring (some ([] : List Nat))).length + (encode_qstring (some ([] : List Nat))).length + (encode_qstring (some ([] : List Nat))).length + 13 + (encode_qstring (some my_call)).length + (encode_qstring (some my_call)).length := by
      simp [beBytes_length, encode_qdatetime_length]
      try omega
    rw [hD, ← hP]
    exact decode_qstring_at _ my_grid _ hmyg
  have h16 : decode_qstring (build_qso_logged_fields wsjtx_id dx_call dx_grid freq_hz mode rst_sent rst_rcvd my_call my_grid now) (12 + (encode_qstring (some wsjtx_id)).length + 13 + (encode_qstring (some dx_call)).length + (encode_qstring (some dx_grid)).length + 8 + (encode_qstring (some mode)).length + (encode_qstring (some rst_sent)).length + (encode_qstring (some rst_rcvd)).length + (encode_qstring (some ([] : List Nat))).length + (encode_qstring (some ([] : List Nat))).length + (encode_qstring (some ([] : List Nat))).length + 13 + (encode_qstring (some my_call)).length + (encode_qstring (some my_call)).length + (encode_qstring (some my_grid)).length) =
      .ok (my_grid, 12 + (encode_qstring (some wsjtx_id)).length + 13 + (encode_qstring (some dx_call)).length + (encode_qstring (some dx_grid)).length + 8 + (encode_qstring (some mode)).length + (encode_qstring (some rst_sent)).length + (encode_qstring (some rst_rcvd)).length + (encode_qstring (some ([] : List Nat))).length + (encode_qstring (some ([] : List Nat))).length + (encode_qstring (some ([] : List Nat))).length + 13 + (encode_qstring (some my_call)).length + (encode_qstring (some my_call)).length + (encode_qstring (some my_grid)).length + (encode_qstring (some my_grid)).length) := by
    have hD : build_qso_logged_fields wsjtx_id dx_call dx_grid freq_hz mode rst_sent rst_rcvd my_call my_grid now =
        (beBytes 4 MAGIC ++ beBytes 4 SCHEMA ++ beBytes 4 MSG_QSO_LOGGED ++
        encode_qstring (some wsjtx_id) ++
        encode_qdatetime now ++
        encode_qstring (some dx_call) ++
        encode_qstring (some dx_grid) ++
        beBytes 8 freq_hz ++
        encode_qstring (some mode) ++
        encode_qstring (some rst_sent) ++
        encode_qstring (some rst_rcvd) ++
        encode_qstring (some ([] : List Nat)) ++
        encode_qstring (some ([] : List Nat)) ++
        encode_qstring (some ([] : List Nat)) ++
        encode_qdatetime now ++
        encode_qstring (some my_call) ++
        encode_qstring (some my_call) ++
        encode_qstring (some my_grid)) ++
          (encode_qstring (some my_grid) ++ (encode_qstring (some dx_grid) ++ ([] : List Nat))) := by
      simp [build_qso_logged_fields, List.append_assoc]
    have hP : (beBytes 4 MAGIC ++ beBytes 4 SCHEMA ++ beBytes 4 MSG_QSO_LOGGED ++
        encode_qstring (some wsjtx_id) ++
        encode_qdatetime now ++
        encode_qstring (some dx_call) ++
        encode_qstring (some dx_grid) ++
        beBytes 8 freq_hz ++
        encode_qstring (some mode) ++
        encode_qstring (some rst_sent) ++
        encode_qstring (some rst_rcvd) ++
        encode_qstring (some ([] : List Nat)) ++
        encode_qstring (some ([] : List Nat)) ++
        encode_qstring (some ([] : List Nat)) ++
        encode_qdatetime now ++
        encode_qstring (some my_call) ++
        encode_qstring (some my_call) ++
        encode_qstring (some my_grid) : List Nat).length = 12 + (encode_qstring (some wsjtx_id)).length + 13 + (encode_qstring (some dx_call)).length + (encode_qstring (some dx_grid)).length + 8 + (encode_qstring (some mode)).length + (encode_qstring (some rst_sent)).length + (encode_qstring (some rst_rcvd)).length + (encode_qstring (some ([] : List Nat))).length + (encode_qstring (some ([] : List Nat))).length + (encode_qstring (some ([] : List Nat))).length + 13 + (encode_qstring (some my_call)).length + (encode_qstring (some my_call)).length + (encode_qstring (some my_grid)).length := by
      simp [beBytes_length, encode_qdatetime_length]
      try omega
    rw [hD, ← hP]
    exact decode_qstring_at _ my_grid _ hmyg
  have h17 : decode_qstring (build_qso_logged_fields wsjtx_id dx_call dx_grid freq_hz mode rst_sent rst_rcvd my_call my_grid now) (12 + (encode_qstring (some wsjtx_id)).length + 13 + (encode_qstring (some dx_call)).length + (encode_qstring (some dx_grid)).length + 8 + (encode_qstring (some mode)).length + (encode_qstring (some rst_sent)).length + (encode_qstring (some rst_rcvd)).length + (encode_qstring (some ([] : List Nat))).length + (encode_qstring (some ([] : List Nat))).length + (encode_qstring (some ([] : List Nat))).length + 13 + (encode_qstring (some my_call)).length + (encode_qstring (some my_call)).length + (encode_qstring (some my_grid)).length + (encode_qstring (some my_grid)).length) =
      .ok (dx_grid, 12 + (encode_qstring (some wsjtx_id)).length + 13 + (encode_qstring (some dx_call)).length + (encode_qstring (some dx_grid)).length + 8 + (encode_qstring (some mode)).length + (encode_qstring (some rst_sent)).length + (encode_qstring (some rst_rcvd)).length + (encode_qstring (some ([] : List Nat))).length + (encode_qstring (some ([] : List Nat))).length + (encode_qstring (some ([] : List Nat))).length + 13 + (encode_qstring (some my_call)).length + (encode_qstring (some my_call)).length + (encode_qstring (some my_grid)).length + (encode_qstring (some my_grid)).length + (encode_qstring (some dx_grid)).length) := by
    have hD : build_qso_logged_fields wsjtx_id dx_call dx_grid freq_hz mode rst_sent rst_rcvd my_call my_grid now =
        (beBytes 4 MAGIC ++ beBytes 4 SCHEMA ++ beBytes 4 MSG_QSO_LOGGED ++
        encode_qstring (some wsjtx_id) ++
        encode_qdatetime now ++
        encode_qstring (some dx_call) ++
        encode_qstring (some dx_grid) ++
        beBytes 8 freq_hz ++
        encode_qstring (some mode) ++
        encode_qstring (some rst_sent) ++
        encode_qstring (some rst_rcvd) ++
        encode_qstring (some ([] : List Nat)) ++
        encode_qstring (some ([] : List Nat)) ++
        encode_qstring (some ([] : List Nat)) ++
        encode_qdatetime now ++
        encode_qstring (some my_call) ++
        encode_qstring (some my_call) ++
        encode_qstring (some my_grid) ++
        encode_qstring (some my_grid)) ++
          (encode_qstring (some dx_grid) ++ ([] : List Nat)) := by
      simp [build_qso_logged_fields, List.append_assoc]
    have hP : (beBytes 4 MAGIC ++ beBytes 4 SCHEMA ++ beBytes 4 MSG_QSO_LOGGED ++
        encode_qstring (some wsjtx_id) ++
        encode_qdatetime now ++
        encode_qstring (some dx_call) ++
        encode_qstring (some dx_grid) ++
        beBytes 8 freq_hz ++
        encode_qstring (some mode) ++
        encode_qstring (some rst_sent) ++
        encode_qstring (some rst_rcvd) ++
        encode_qstring (some ([] : List Nat)) ++
        encode_qstring (some ([] : List Nat)) ++
        encode_qstring (some ([] : List Nat)) ++
        encode_qdatetime now ++
        encode_qstring (some my_call) ++
        encode_qstring (some my_call) ++
        encode_qstring (some my_grid) ++
        encode_qstring (some my_grid) : List Nat).length = 12 + (encode_qstring (some wsjtx_id)).length + 13 + (encode_qstring (some dx_call)).length + (encode_qstring (some dx_grid)).length + 8 + (encode_qstring (some mode)).length + (encode_qstring (some rst_sent)).length + (encode_qstring (some rst_rcvd)).length + (encode_qstring (some ([] : List Nat))).length + (encode_qstring (some ([] : List Nat))).length + (encode_qstring (some ([] : List Nat))).length + 13 + (encode_qstring (some my_call)).length + (encode_qstring (some my_call)).length + (encode_qstring (some my_grid)).length + (encode_qstring (some my_grid)).length := by
      simp [beBytes_length, encode_qdatetime_length]
      try omega
    rw [hD, ← hP]
    exact decode_qstring_at _ dx_grid _ hdxg
  have h18 : decode_qstring (build_qso_logged_fields wsjtx_id dx_call dx_grid freq_hz mode rst_sent rst_rcvd my_call my_grid now) (12 + (encode_qstring (some wsjtx_id)).length + 13 + (encode_qstring (some dx_call)).length + (encode_qstring (some dx_grid)).length + 8 + (encode_qstring (some mode)).length + (encode_qstring (some rst_sent)).length + (encode_qstring (some rst_rcvd)).length + (encode_qstring (some ([] : List Nat))).length + (encode_qstring (some ([] : List Nat))).length + (encode_qstring (some ([] : List Nat))).length + 13 + (encode_qstring (some my_call)).length + (encode_qstring (some my_call)).length + (encode_qstring (some my_grid)).length + (encode_qstring (some my_grid)).length + (encode_qstring (some dx_grid)).length) =
      .error "Not enough data for QString length" := by
    have hlen : (build_qso_logged_fields wsjtx_id dx_call dx_grid freq_hz mode rst_sent rst_rcvd my_call my_grid now).length = 12 + (encode_qstring (some wsjtx_id)).length + 13 + (encode_qstring (some dx_call)).length + (encode_qstring (some dx_grid)).length + 8 + (encode_qstring (some mode)).length + (encode_qstring (some rst_sent)).length + (encode_qstring (some rst_rcvd)).length + (encode_qstring (some ([] : List Nat))).length + (encode_qstring (some ([] : List Nat))).length + (encode_qstring (some ([] : List Nat))).length + 13 + (encode_qstring (some my_call)).length + (encode_qstring (some my_call)).length + (encode_qstring (some my_grid)).length + (encode_qstring (some my_grid)).length + (encode_qstring (some dx_grid)).length := by
      simp [build_qso_logged_fields, beBytes_length, encode_qdatetime_length]
      try omega
    unfold decode_qstring
    rw [if_pos (by omega)]
  have hcore : parse_qso_logged_core (build_qso_logged_fields wsjtx_id dx_call dx_grid freq_hz mode rst_sent rst_rcvd my_call my_grid now) =
      .ok { wsjtx_id := wsjtx_id, datetime_off := qdatetimeValue now,
            datetime_on := qdatetimeValue now, dx_call := dx_call,
            dx_grid := dx_grid, freq_hz := freq_hz,
            band := freq_to_band freq_hz, mode := mode,
            report_sent := rst_sent, report_rcvd := rst_rcvd,
            tx_power := [], comments := [], name := [],
            operator_call := my_call, my_call := my_call,
            my_grid := my_grid, exchange_sent := my_grid,
            exchange_rcvd := dx_grid, adif_prop_mode := [] } := by
    simp only [parse_qso_logged_core, h1, h2, h3, h4, h5, h6, h7, h8, h9, h10, h11, h12, h13, h14, h15, h16, h17, h18]
  simp only [parse_qso_logged, hcore, qso_logged_record]

/-- The full message is the truncated one followed by the null
sentinel: the re-encode of an absent trailing optional field differs
from the original bytes only by emitting that field as empty. -/
theorem build_qso_logged_message_split
    (wsjtx_id dx_call dx_grid mode rst_sent rst_rcvd my_call my_grid :
      List Nat) (freq_hz : Nat) (now : PyDateTime) :
    build_qso_logged_message wsjtx_id dx_call dx_grid freq_hz mode rst_sent rst_rcvd my_call my_grid now =
      build_qso_logged_fields wsjtx_id dx_call dx_grid freq_hz mode rst_sent rst_rcvd my_call my_grid now ++ beBytes 4 0xFFFFFFFF := by
  simp [build_qso_logged_message, build_qso_logged_fields,
    encode_qstring, List.append_assoc]

/-- C2.  Decode-then-re-encode round trip, using the repository's own
encoders (`encode_qstring`, `encode_qdatetime` and
`build_qso_logged_message` of `src/test_qso_relay.py`) against the
decoders of `src/modules/radio_updater.py`.  (i) For every
length-prefixed string field: decoding the bytes of an encoded string
and re-encoding the resulting string reproduces the original bytes,
the `0xFFFFFFFF` sentinel decodes to empty, and empty encodes back to
the sentinel.  (ii) For every well-formed QSO Logged message: decoding
recovers the encoder's field values exactly, re-encoding the decoded
fields (with the same clock sample) yields byte-identical output, and
when the trailing optional propagation-mode field is absent the
decoded field is empty and the re-encode differs from the original
bytes only by emitting that field as empty (the appended sentinel). -/
theorem decode_reencode_byte_identical (wsjtx_id dx_call dx_grid mode rst_sent rst_rcvd my_call my_grid : List Nat)
    (freq_hz : Nat) (now : PyDateTime)
    (hid : wsjtx_id.length < 0xFFFFFFFF)
    (hdxc : dx_call.length < 0xFFFFFFFF)
    (hdxg : dx_grid.length < 0xFFFFFFFF)
    (hmode : mode.length < 0xFFFFFFFF)
    (hrsts : rst_sent.length < 0xFFFFFFFF)
    (hrstr : rst_rcvd.length < 0xFFFFFFFF)
    (hmyc : my_call.length < 0xFFFFFFFF)
    (hmyg : my_grid.length < 0xFFFFFFFF)
    (hfreq : freq_hz < 18446744073709551616)
    (hnow : WFPyDt now)
    (s : List Nat) (hs : s.length < 0xFFFFFFFF) :
    (decode_qstring (encode_qstring (some s)) 0 =
        .ok (s, (encode_qstring (some s)).length) ∧
      decode_qstring (beBytes 4 0xFFFFFFFF) 0 = .ok ([], 4) ∧
      encode_qstring (some []) = beBytes 4 0xFFFFFFFF) ∧
    (parse_qso_logged (build_qso_logged_message wsjtx_id dx_call dx_grid freq_hz mode rst_sent rst_rcvd my_call my_grid now) =
        some (qso_logged_record wsjtx_id dx_call dx_grid freq_hz mode rst_sent rst_rcvd my_call my_grid now) ∧
      build_qso_logged_message (qso_logged_record wsjtx_id dx_call dx_grid freq_hz mode rst_sent rst_rcvd my_call my_grid now).wsjtx_id (qso_logged_record wsjtx_id dx_call dx_grid freq_hz mode rst_sent rst_rcvd my_call my_grid now).dx_call
          (qso_logged_record wsjtx_id dx_call dx_grid freq_hz mode rst_sent rst_rcvd my_call my_grid now).dx_grid (qso_logged_record wsjtx_id dx_call dx_grid freq_hz mode rst_sent rst_rcvd my_call my_grid now).freq_hz (qso_logged_record wsjtx_id dx_call dx_grid freq_hz mode rst_sent rst_rcvd my_call my_grid now).mode
          (qso_logged_record wsjtx_id dx_call dx_grid freq_hz mode rst_sent rst_rcvd my_call my_grid now).report_sent (qso_logged_record wsjtx_id dx_call dx_grid freq_hz mode rst_sent rst_rcvd my_call my_grid now).report_rcvd
          (qso_logged_record wsjtx_id dx_call dx_grid freq_hz mode rst_sent rst_rcvd my_call my_grid now).my_call (qso_logged_record wsjtx_id dx_call dx_grid freq_hz mode rst_sent rst_rcvd my_call my_grid now).my_grid now =
        build_qso_logged_message wsjtx_id dx_call dx_grid freq_hz mode rst_sent rst_rcvd my_call my_grid now ∧
      parse_qso_logged (build_qso_logged_fields wsjtx_id dx_call dx_grid freq_hz mode rst_sent rst_rcvd my_call my_grid now) =
        some (qso_logged_record wsjtx_id dx_call dx_grid freq_hz mode rst_sent rst_rcvd my_call my_grid now) ∧
      build_qso_logged_message wsjtx_id dx_call dx_grid freq_hz mode rst_sent rst_rcvd my_call my_grid now =
        build_qso_logged_fields wsjtx_id dx_call dx_grid freq_hz mode rst_sent rst_rcvd my_call my_grid now ++ beBytes 4 0xFFFFFFFF) := by
  refine ⟨⟨decode_encode_qstring s hs, by rfl, rfl⟩, ?_, rfl, ?_, ?_⟩
  · exact parse_build_qso_logged wsjtx_id dx_call dx_grid mode rst_sent
      rst_rcvd my_call my_grid freq_hz now hid hdxc hdxg hmode hrsts
      hrstr hmyc hmyg hfreq hnow
  · exact parse_build_qso_logged_fields wsjtx_id dx_call dx_grid mode
      rst_sent rst_rcvd my_call my_grid freq_hz now hid hdxc hdxg hmode
      hrsts hrstr hmyc hmyg hfreq hnow
  · exact build_qso_logged_message_split wsjtx_id dx_call dx_grid mode
      rst_sent rst_rcvd my_call my_grid freq_hz now

/-- Witness for C2 at a concrete message: `W1AW`/`FN31` on 50.313 MHz
logged by the `ic7610` instance at 1970-01-02 00:00:00 UTC — the
decoded time-off is exactly one day (86400000 ms) after the epoch. -/
theorem decode_reencode_byte_identical_witness :
    WFPyDt ⟨1970, 1, 2, 0, 0, 0, 0⟩ ∧
      parse_qso_logged (build_qso_logged_message IC_ID [87, 49, 65, 87] [70, 78, 51, 49] 50313000 [70, 84, 56] [45, 49, 48] [45, 49, 50] [78, 53, 90, 89] [69, 77, 49, 53] ⟨1970, 1, 2, 0, 0, 0, 0⟩) =
        some (qso_logged_record IC_ID [87, 49, 65, 87] [70, 78, 51, 49] 50313000 [70, 84, 56] [45, 49, 48] [45, 49, 50] [78, 53, 90, 89] [69, 77, 49, 53] ⟨1970, 1, 2, 0, 0, 0, 0⟩) ∧
      (qso_logged_record IC_ID [87, 49, 65, 87] [70, 78, 51, 49] 50313000 [70, 84, 56] [45, 49, 48] [45, 49, 50] [78, 53, 90, 89] [69, 77, 49, 53] ⟨1970, 1, 2, 0, 0, 0, 0⟩).datetime_off = 86400000 := by
  have hnow : WFPyDt ⟨1970, 1, 2, 0, 0, 0, 0⟩ :=
    ⟨by decide, by decide, by decide, by decide⟩
  have h := decode_reencode_byte_identical IC_ID [87, 49, 65, 87]
    [70, 78, 51, 49] [70, 84, 56] [45, 49, 48] [45, 49, 50]
    [78, 53, 90, 89] [69, 77, 49, 53] 50313000 ⟨1970, 1, 2, 0, 0, 0, 0⟩
    (by decide) (by decide) (by decide) (by decide) (by decide)
    (by decide) (by decide) (by decide) (by decide) hnow
    [104, 105] (by decide)
  exact ⟨hnow, h.2.1, by decide⟩

/-! ### Claim C10 — string-level encode-then-decode round trip -/

/-- C10.  For every string (byte sequence) `s`, including the empty
one, decoding the bytes produced by encoding `s` yields exactly `s`
back: encode maps empty/`None` to the `0xFFFFFFFF` sentinel and any
non-empty string to its length prefix plus bytes, and decode inverts
both cases; `None` and the empty string become indistinguishable
(identical encodings), and no string value is altered by the
encode-then-decode round trip. -/
theorem qstring_encode_then_decode (s : List Nat)
    (h : s.length < 0xFFFFFFFF) :
    decode_qstring (encode_qstring (some s)) 0 =
        .ok (s, (encode_qstring (some s)).length) ∧
      encode_qstring none = encode_qstring (some []) ∧
      decode_qstring (encode_qstring none) 0 = .ok ([], 4) := by
  exact ⟨decode_encode_qstring s h, rfl, by rfl⟩

/-- Witness for C10 at concrete inputs (the empty string and a
two-byte string). -/
theorem qstring_encode_then_decode_witness :
    ([] : List Nat).length < 0xFFFFFFFF ∧
      decode_qstring (encode_qstring (some ([] : List Nat))) 0 =
        .ok ([], 4) ∧
      decode_qstring (encode_qstring (some ([87, 49] : List Nat))) 0 =
        .ok ([87, 49], 6) := by
  have h1 := qstring_encode_then_decode [] (by decide)
  have h2 := qstring_encode_then_decode [87, 49] (by decide)
  exact ⟨by decide, h1.1.trans (by rfl), h2.1.trans (by rfl)⟩

/-! ### Claim C5 — decode failures are discarded at the listener -/

/-- C5.  Part (i): any datagram whose header/decode raises is discarded at
the listener boundary and the receive loop continues: the state after
processing it is exactly the state of the run without it (no decode
failure terminates the loop), with only a drop recorded in the trace.
(ii) A datagram shorter than the 12-byte header minimum fails decode,
(iii) as does one with the wrong magic constant, and (iv)/(v) string
decoding bounds-checks the remaining buffer before consuming the length
prefix and the string body; (vi) a ContactLogged datagram whose body
fails to decode (e.g. a truncated string inside it) is likewise
discarded without disturbing the rest of the run. -/
theorem malformed_datagram_dropped :
    (∀ st d ds, (∃ e, parse_packet_header d.data = .error e) →
        (listen_run st (d :: ds)).1 = (listen_run st ds).1 ∧
          (listen_run st (d :: ds)).2 =
            Effect.dropMalformed :: (listen_run st ds).2) ∧
      (∀ data : List Nat, data.length < 12 →
        parse_packet_header data = .error "Packet too short") ∧
      (∀ data : List Nat, 12 ≤ data.length →
        beVal (slice data 0 4) ≠ MAGIC →
        parse_packet_header data = .error "Invalid magic number") ∧
      (∀ data offset, data.length < offset + 4 →
        decode_qstring data offset =
          .error "Not enough data for QString length") ∧
      (∀ data offset, offset + 4 ≤ data.length →
        beVal (slice data offset 4) ≠ 0xFFFFFFFF →
        data.length < offset + 4 + beVal (slice data offset 4) →
        decode_qstring data offset =
          .error "Not enough data for QString content") ∧
      (∀ st d ds id, parse_packet_header d.data = .ok (MSG_QSO_LOGGED, id) →
        parse_qso_logged d.data = none →
        (listen_run st (d :: ds)).1 = (listen_run st ds).1) := by
  refine ⟨?_, ?_, ?_, ?_, ?_, ?_⟩
  · rintro st d ds ⟨e, he⟩
    constructor <;> simp [listen_run, process_datagram, he]
  · intro data h
    unfold parse_packet_header
    rw [if_pos h]
  · intro data h hmag
    simp only [parse_packet_header]
    rw [if_neg (by omega), if_pos hmag]
  · intro data offset h
    unfold decode_qstring
    rw [if_pos h]
  · intro data offset h hsent hshort
    simp only [decode_qstring]
    rw [if_neg (by omega), if_neg hsent, if_pos hshort]
  · intro st d ds id hp hq
    simp [listen_run, process_datagram, hp, hq, MSG_HEARTBEAT, MSG_QSO_LOGGED]

/-- Witness for C5: a 10-byte datagram (below the 12-byte header
minimum) is dropped and does not stop the listener from processing the
next valid heartbeat. -/
theorem malformed_datagram_dropped_witness :
    (∃ e, parse_packet_header (List.replicate 10 0) = .error e) ∧
      (listen_run initState [⟨List.replicate 10 0, 5000, 1⟩, hb0]).1 =
        (listen_run initState [hb0]).1 ∧
      registry_lookup
        (listen_run initState
          [⟨List.replicate 10 0, 5000, 1⟩, hb0]).1.wsjtx_ids 61234 =
        some (IC_ID, 777) := by
  have hbad : parse_packet_header (List.replicate 10 0) =
      .error "Packet too short" := by rfl
  have h := malformed_datagram_dropped.1 initState
    ⟨List.replicate 10 0, 5000, 1⟩ [hb0] ⟨"Packet too short", hbad⟩
  refine ⟨⟨"Packet too short", hbad⟩, h.1, ?_⟩
  rw [h.1]
  rfl

/-! ### Claim C6 — heartbeats key the registry by source port -/

theorem registry_lookup_set_self (reg : Registry) (port : Nat)
    (v : List Nat × Nat) :
    registry_lookup (registry_set reg port v) port = some v := by
  induction reg with
  | nil => simp [registry_set, registry_lookup]
  | cons e rest ih =>
    by_cases h : e.1 = port
    · simp [registry_set, registry_lookup, h]
    · simp [registry_set, registry_lookup, h, ih]

theorem registry_mem_set_self (reg : Registry) (port : Nat)
    (v : List Nat × Nat) :
    registry_mem (registry_set reg port v) port = true := by
  induction reg with
  | nil => simp [registry_set, registry_mem]
  | cons e rest ih =>
    by_cases h : e.1 = port
    · simp [registry_set, registry_mem, h]
    · simp [registry_set, registry_mem, h, ih]

theorem registry_lookup_set_other (reg : Registry) (port p : Nat)
    (v : List Nat × Nat) (h : p ≠ port) :
    registry_lookup (registry_set reg port v) p = registry_lookup reg p := by
  have hne : ¬ port = p := fun hc => h hc.symm
  induction reg with
  | nil => simp [registry_set, registry_lookup, hne]
  | cons e rest ih =>
    by_cases he : e.1 = port
    · simp [registry_set, registry_lookup, he, hne]
    · by_cases hp : e.1 = p
      · simp [registry_set, registry_lookup, he, hp, h]
      · simp [registry_set, registry_lookup, he, hp, ih]

theorem registry_mem_set_mono (reg : Registry) (port p : Nat)
    (v : List Nat × Nat) (h : registry_mem reg p = true) :
    registry_mem (registry_set reg port v) p = true := by
  induction reg with
  | nil => simp [registry_mem] at h
  | cons e rest ih =>
    by_cases hpp : port = p
    · subst hpp
      exact registry_mem_set_self _ _ _
    · have hne : ¬ p = port := fun hc => hpp hc.symm
      by_cases he : e.1 = port
      · have hrest : registry_mem rest p = true := by
          simp [registry_mem, he, hpp] at h
          exact h
        simp [registry_set, registry_mem, he, hpp, hne, hrest]
      · by_cases hp : e.1 = p
        · simp [registry_set, registry_mem, he, hp, hne]
        · have hrest : registry_mem rest p = true := by
            simp [registry_mem, hp] at h
            exact h
          simp [registry_set, registry_mem, he, hp, hne, ih hrest]

theorem handle_qso_logged_wsjtx_ids (st : UpdaterState) (q : QsoData) :
    (handle_qso_logged st q).1.wsjtx_ids = st.wsjtx_ids := by
  unfold handle_qso_logged
  split <;> rfl

theorem reportCount_append (p : Nat) (a b : List Effect) :
    reportCount p (a ++ b) = reportCount p a + reportCount p b := by
  induction a with
  | nil => simp [reportCount]
  | cons e rest ih =>
    cases e <;> simp [reportCount, ih]
    omega

theorem handle_qso_logged_reportCount (st : UpdaterState) (q : QsoData)
    (p : Nat) : reportCount p (handle_qso_logged st q).2 = 0 := by
  unfold handle_qso_logged
  split <;> simp [reportCount]

theorem process_datagram_mem_mono (st : UpdaterState) (d : Datagram)
    (p : Nat) (h : registry_mem st.wsjtx_ids p = true) :
    registry_mem (process_datagram st d).1.wsjtx_ids p = true := by
  unfold process_datagram
  cases hp : parse_packet_header d.data with
  | error e => exact h
  | ok r =>
    by_cases h0 : r.1 = MSG_HEARTBEAT
    · simp [h0]
      exact registry_mem_set_mono _ _ _ _ h
    · by_cases h5 : r.1 = MSG_QSO_LOGGED
      · cases hq : parse_qso_logged d.data with
        | none => simpa [h0, h5, MSG_HEARTBEAT, MSG_QSO_LOGGED] using h
        | some q =>
          simpa [h0, h5, MSG_HEARTBEAT, MSG_QSO_LOGGED,
            handle_qso_logged_wsjtx_ids] using h
      · by_cases h12 : r.1 = MSG_LOGGED_ADIF
        · cases hr : parse_adif_logged d.data with
          | none => simpa [h0, h5, h12, MSG_HEARTBEAT, MSG_QSO_LOGGED,
              MSG_LOGGED_ADIF] using h
          | some r2 => simpa [h0, h5, h12, MSG_HEARTBEAT, MSG_QSO_LOGGED,
              MSG_LOGGED_ADIF] using h
        · simpa [h0, h5, h12] using h

theorem process_datagram_reportCount (st : UpdaterState) (d : Datagram)
    (p : Nat) :
    (registry_mem st.wsjtx_ids p = true →
        reportCount p (process_datagram st d).2 = 0) ∧
      reportCount p (process_datagram st d).2 ≤ 1 ∧
      (reportCount p (process_datagram st d).2 = 1 →
        registry_mem (process_datagram st d).1.wsjtx_ids p = true) := by
  unfold process_datagram
  cases hp : parse_packet_header d.data with
  | error e => simp [reportCount]
  | ok r =>
    by_cases h0 : r.1 = MSG_HEARTBEAT
    · by_cases hmem : registry_mem st.wsjtx_ids d.source_port
      · simp [h0, hmem, reportCount]
      · by_cases hpq : d.source_port = p
        · subst hpq
          simp [h0, reportCount, hmem, registry_mem_set_self]
        · simp [h0, reportCount, hpq, hmem]
    · by_cases h5 : r.1 = MSG_QSO_LOGGED
      · cases hq : parse_qso_logged d.data with
        | none => simp [h0, h5, MSG_HEARTBEAT, MSG_QSO_LOGGED, reportCount]
        | some q =>
          simp [h0, h5, MSG_HEARTBEAT, MSG_QSO_LOGGED,
            handle_qso_logged_reportCount, handle_qso_logged_wsjtx_ids]
      · by_cases h12 : r.1 = MSG_LOGGED_ADIF
        · cases hr : parse_adif_logged d.data with
          | none => simp [h0, h5, h12, MSG_HEARTBEAT, MSG_QSO_LOGGED,
              MSG_LOGGED_ADIF, reportCount]
          | some r2 => simp [h0, h5, h12, MSG_HEARTBEAT, MSG_QSO_LOGGED,
              MSG_LOGGED_ADIF, reportCount]
        · simp [h0, h5, h12, reportCount]

theorem listen_run_reports_zero_of_mem (ds : List Datagram)
    (st : UpdaterState) (p : Nat)
    (h : registry_mem st.wsjtx_ids p = true) :
    reportCount p (listen_run st ds).2 = 0 := by
  induction ds generalizing st with
  | nil => simp [listen_run, reportCount]
  | cons d ds ih =>
    have h1 := (process_datagram_reportCount st d p).1 h
    have h2 := ih (process_datagram st d).1 (process_datagram_mem_mono st d p h)
    simp [listen_run, reportCount_append, h1, h2]

theorem listen_run_reportCount_le_one (ds : List Datagram)
    (st : UpdaterState) (p : Nat) :
    reportCount p (listen_run st ds).2 ≤ 1 := by
  induction ds generalizing st with
  | nil => simp [listen_run, reportCount]
  | cons d ds ih =>
    have hstep := process_datagram_reportCount st d p
    by_cases hone : reportCount p (process_datagram st d).2 = 1
    · have h2 := listen_run_reports_zero_of_mem ds _ p (hstep.2.2 hone)
      simp [listen_run, reportCount_append, hone, h2]
    · have h0 : reportCount p (process_datagram st d).2 = 0 := by
        have := hstep.2.1
        omega
      have h2 := ih (process_datagram st d).1
      simp [listen_run, reportCount_append, h0]
      exact h2

/-- C6.  A heartbeat updates the endpoint registry keyed by the
*actual source port* of the sender (never any other key: entries at
every other port, including the statically configured listening port,
are untouched), storing the instance id and the last-seen time; a
previously unseen source port is reported exactly once — the report is
emitted only when the port is absent from the registry, over any run
each port is reported at most once, and never once the port is
registered. -/
theorem heartbeat_keyed_by_source_port :
    (∀ st d id, parse_packet_header d.data = .ok (MSG_HEARTBEAT, id) →
        registry_lookup (process_datagram st d).1.wsjtx_ids d.source_port =
          some (id, d.now) ∧
        (∀ p', p' ≠ d.source_port →
          registry_lookup (process_datagram st d).1.wsjtx_ids p' =
            registry_lookup st.wsjtx_ids p') ∧
        (registry_mem st.wsjtx_ids d.source_port = true →
          (process_datagram st d).2 = []) ∧
        (registry_mem st.wsjtx_ids d.source_port = false →
          (process_datagram st d).2 =
            [Effect.reportDiscovered d.source_port id])) ∧
      (∀ st ds p, reportCount p (listen_run st ds).2 ≤ 1) ∧
      (∀ st ds p, registry_mem st.wsjtx_ids p = true →
        reportCount p (listen_run st ds).2 = 0) := by
  refine ⟨?_, fun st ds p => listen_run_reportCount_le_one ds st p,
    fun st ds p h => listen_run_reports_zero_of_mem ds st p h⟩
  intro st d id hp
  refine ⟨?_, ?_, ?_, ?_⟩
  · simp [process_datagram, hp, registry_lookup_set_self]
  · intro p' hne
    simp [process_datagram, hp, registry_lookup_set_other _ _ _ _ hne]
  · intro hmem
    simp [process_datagram, hp, hmem]
  · intro hmem
    simp [process_datagram, hp, hmem]

/-- Witness for C6: the heartbeat with instance id
`"WSJT-X - ic7610"` from source port 61234 registers the endpoint under
key 61234 (key 2237 stays empty), reports the discovery, and two
identical heartbeats produce exactly one discovery report. -/
theorem heartbeat_keyed_by_source_port_witness :
    parse_packet_header hb0.data = .ok (MSG_HEARTBEAT, IC_ID) ∧
      registry_lookup (process_datagram initState hb0).1.wsjtx_ids 61234 =
        some (IC_ID, 777) ∧
      registry_lookup (process_datagram initState hb0).1.wsjtx_ids 2237 =
        none ∧
      (process_datagram initState hb0).2 =
        [Effect.reportDiscovered 61234 IC_ID] ∧
      reportCount 61234 (listen_run initState [hb0, hb0]).2 = 1 := by
  have hp : parse_packet_header hb0.data = .ok (MSG_HEARTBEAT, IC_ID) := by
    rfl
  have h := heartbeat_keyed_by_source_port.1 initState hb0 IC_ID hp
  exact ⟨hp, h.1, by rfl, h.2.2.2 (by rfl), by rfl⟩

/-! ### Claim C8 — watchdog grid replay -/

/-- C8.  One watchdog poll cycle triggers a grid replay *iff* the
sampled process snapshot contains a PID absent from the previous
snapshot and a (truthy) last-known grid value is set; when triggered,
the trace is exactly the 2-second settle sleep followed by one
LocationChange carrying the last-known grid to every currently
registered endpoint (at its discovered source port); in every case the
sample becomes the remembered PID set, and no effect is produced when
no new PID appears or no grid has been set. -/
theorem watchdog_replay_iff (st : UpdaterState) (sample : List Nat) :
    ((jt9_monitor_step st sample).2 ≠ [] ↔
        (∃ pid ∈ sample, pid ∉ st.jt9_pids) ∧
          gridTruthy st.current_grid = true) ∧
      (∀ g, st.current_grid = some g → g ≠ [] →
        (∃ pid ∈ sample, pid ∉ st.jt9_pids) →
        (jt9_monitor_step st sample).2 =
          Effect.sleepMs 2000 ::
            st.wsjtx_ids.map
              (fun e => Effect.sendLocation e.1
                (encode_location_msg e.2.1 g))) ∧
      (jt9_monitor_step st sample).1.jt9_pids = sample := by
  have hfilter : (sample.filter (fun p => decide (p ∉ st.jt9_pids)) ≠ []) ↔
      ∃ pid ∈ sample, pid ∉ st.jt9_pids := by
    rw [ne_eq, List.filter_eq_nil_iff]
    push_neg
    constructor
    · rintro ⟨a, ha, hp⟩
      exact ⟨a, ha, by simpa using hp⟩
    · rintro ⟨a, ha, hp⟩
      exact ⟨a, ha, by simpa using hp⟩
  refine ⟨?_, ?_, ?_⟩
  · constructor
    · intro hne
      by_cases hc : sample.filter (fun p => decide (p ∉ st.jt9_pids)) ≠ [] ∧
          gridTruthy st.current_grid = true
      · exact ⟨hfilter.mp hc.1, hc.2⟩
      · exfalso
        apply hne
        simp only [jt9_monitor_step]
        rw [if_neg hc]
    · rintro ⟨hex, hgrid⟩
      simp only [jt9_monitor_step]
      rw [if_pos ⟨hfilter.mpr hex, hgrid⟩]
      simp
  · intro g hg hge hex
    simp only [jt9_monitor_step]
    rw [if_pos ⟨hfilter.mpr hex, by simp [gridTruthy, hg, hge]⟩]
    simp [resend_grid_to_all, hg, hge]
  · simp only [jt9_monitor_step]
    split <;> rfl

/-- Witness for C8: with one registered endpoint, grid `EM15`, previous
PIDs `{100}` and sample `{100, 200}` (PID 200 is new), the step sleeps
2 s and sends the LocationChange for `EM15` to port 61234; the sample
is remembered. -/
theorem watchdog_replay_iff_witness :
    (jt9_monitor_step
        { initState with wsjtx_ids := [(61234, (IC_ID, 5))],
                         current_grid := some [69, 77, 49, 53],
                         jt9_pids := [100] } [100, 200]).2 =
      [Effect.sleepMs 2000,
        Effect.sendLocation 61234
          (encode_location_msg IC_ID [69, 77, 49, 53])] ∧
      (jt9_monitor_step
        { initState with wsjtx_ids := [(61234, (IC_ID, 5))],
                         current_grid := some [69, 77, 49, 53],
                         jt9_pids := [100] } [100, 200]).1.jt9_pids =
        [100, 200] := by
  have h := watchdog_replay_iff
    { initState with wsjtx_ids := [(61234, (IC_ID, 5))],
                     current_grid := some [69, 77, 49, 53],
                     jt9_pids := [100] } [100, 200]
  refine ⟨?_, h.2.2⟩
  have hsend := h.2.1 [69, 77, 49, 53] rfl (by decide)
    ⟨200, by decide, by decide⟩
  rw [hsend]
  rfl
